import Mathlib

/-!
Shallow embedding of the core computation pipeline of the Pro-Trading-bot
repository (src/types/index.ts): the `TechnicalIndicators` library, the
`TradingStrategies` catalog of 58 strategies, `getAllSignals` and
`getConsensusSignal`.

The TypeScript code computes with IEEE-754 doubles.  Several behaviours that
the claims are about (division by zero producing `NaN` / `Infinity`, `NaN`
propagating through comparisons as `false`) are essential, so numbers are
modelled by `JSNum`: an exact rational together with the three special values
`nan`, `inf` (`Infinity`) and `ninf` (`-Infinity`).  Arithmetic follows the
IEEE rules for these values; rounding of finite values is not modelled
(finite arithmetic is exact rational arithmetic), and the sign of zero is not
modelled (the code never produces a negative-zero denominator from its
inputs).  Out-of-range array reads (`undefined` in JavaScript) are modelled
as `nan`, which is how `undefined` behaves in every arithmetic operation and
comparison that the code performs on such reads.  `Math.sqrt` (used only by
`calculateBollingerBands`) has no exact rational counterpart, so every
definition that needs it is parameterised by a function `sq : ℚ → ℚ` giving
the (approximate) square root of a nonnegative rational; theorems quantify
over `sq`, at most assuming it is nonnegative, as the real square root is.
-/

set_option linter.unusedVariables false

namespace PTB

/-- A JavaScript number: a finite (exact) rational, `NaN`, or `±Infinity`. -/
inductive JSNum where
  | num : ℚ → JSNum
  | nan : JSNum
  | inf : JSNum
  | ninf : JSNum
deriving DecidableEq, Repr

namespace JSNum

/-- IEEE addition on `JSNum` (finite arithmetic exact). -/
def add : JSNum → JSNum → JSNum
  | num a, num b => num (a + b)
  | nan, _ => nan
  | _, nan => nan
  | inf, ninf => nan
  | ninf, inf => nan
  | inf, _ => inf
  | _, inf => inf
  | ninf, _ => ninf
  | _, ninf => ninf

/-- IEEE subtraction on `JSNum`. -/
def sub : JSNum → JSNum → JSNum
  | num a, num b => num (a - b)
  | nan, _ => nan
  | _, nan => nan
  | inf, inf => nan
  | ninf, ninf => nan
  | inf, _ => inf
  | ninf, _ => ninf
  | _, inf => ninf
  | _, ninf => inf

/-- IEEE multiplication on `JSNum` (`Infinity * 0 = NaN`). -/
def mul : JSNum → JSNum → JSNum
  | num a, num b => num (a * b)
  | nan, _ => nan
  | _, nan => nan
  | inf, inf => inf
  | inf, ninf => ninf
  | ninf, inf => ninf
  | ninf, ninf => inf
  | inf, num b => if b = 0 then nan else if 0 < b then inf else ninf
  | num a, inf => if a = 0 then nan else if 0 < a then inf else ninf
  | ninf, num b => if b = 0 then nan else if 0 < b then ninf else inf
  | num a, ninf => if a = 0 then nan else if 0 < a then ninf else inf

/-- IEEE division on `JSNum`.  `0/0 = NaN`; a nonzero finite numerator over
zero gives a signed infinity (the denominators produced by this code are
`+0`, so the negative-zero case is not modelled). -/
def div : JSNum → JSNum → JSNum
  | nan, _ => nan
  | _, nan => nan
  | inf, inf => nan
  | inf, ninf => nan
  | ninf, inf => nan
  | ninf, ninf => nan
  | inf, num b => if 0 ≤ b then inf else ninf
  | ninf, num b => if 0 ≤ b then ninf else inf
  | num _, inf => num 0
  | num _, ninf => num 0
  | num a, num b =>
    if b = 0 then (if a = 0 then nan else if 0 < a then inf else ninf)
    else num (a / b)

/-- JavaScript `<` comparison: any comparison with `NaN` is `false`. -/
def lt : JSNum → JSNum → Bool
  | nan, _ => false
  | _, nan => false
  | num a, num b => decide (a < b)
  | inf, _ => false
  | ninf, ninf => false
  | ninf, _ => true
  | num _, inf => true
  | num _, ninf => false

/-- JavaScript `<=` comparison: any comparison with `NaN` is `false`. -/
def le : JSNum → JSNum → Bool
  | nan, _ => false
  | _, nan => false
  | num a, num b => decide (a ≤ b)
  | inf, inf => true
  | inf, _ => false
  | ninf, _ => true
  | num _, inf => true
  | num _, ninf => false

/-- `Math.abs`. -/
def abs : JSNum → JSNum
  | num a => num |a|
  | nan => nan
  | inf => inf
  | ninf => inf

/-- Binary `Math.max` (`NaN` if either argument is `NaN`). -/
def max2 : JSNum → JSNum → JSNum
  | nan, _ => nan
  | _, nan => nan
  | inf, _ => inf
  | _, inf => inf
  | ninf, b => b
  | a, ninf => a
  | num a, num b => num (max a b)

/-- Binary `Math.min` (`NaN` if either argument is `NaN`). -/
def min2 : JSNum → JSNum → JSNum
  | nan, _ => nan
  | _, nan => nan
  | ninf, _ => ninf
  | _, ninf => ninf
  | inf, b => b
  | a, inf => a
  | num a, num b => num (min a b)

/-- JavaScript truthiness of a number: `0` and `NaN` are falsy. -/
def truthy : JSNum → Bool
  | num a => decide (a ≠ 0)
  | nan => false
  | inf => true
  | ninf => true

/-- `x.isPos` holds when `x` is a finite strictly positive number. -/
def isPos : JSNum → Prop
  | num a => 0 < a
  | _ => False

instance : DecidablePred isPos := by
  intro x
  cases x <;> simp [isPos] <;> infer_instance

/-- `x.isNonneg` holds when `x` is a finite nonnegative number. -/
def isNonneg : JSNum → Prop
  | num a => 0 ≤ a
  | _ => False

/-- `good x`: `x` is a strictly positive finite number or `+Infinity`.  Every
confidence contribution that actually fires has this shape. -/
def good (x : JSNum) : Prop := x.isPos ∨ x = inf

end JSNum

/-- JavaScript unary minus. -/
def JSNum.neg : JSNum → JSNum
  | num a => num (-a)
  | nan => nan
  | inf => ninf
  | ninf => inf

/-- `a || b` on numbers: JavaScript returns `a` when truthy, else `b`. -/
def jsOr (a b : JSNum) : JSNum := if a.truthy then a else b

/-- Array indexing: out-of-range reads behave as `NaN` in arithmetic. -/
def jsIdx (l : List JSNum) (i : ℤ) : JSNum :=
  if 0 ≤ i then l.getD i.toNat JSNum.nan else JSNum.nan

/-- `arr[arr.length - 1]`: the last element (or an out-of-range read). -/
def jsLast (l : List JSNum) : JSNum := jsIdx l ((l.length : ℤ) - 1)

/-- `arr.slice(-n)`: the final `n` elements (whole array when `n ≥ length`). -/
def sliceLast (l : List JSNum) (n : ℕ) : List JSNum := l.drop (l.length - n)

/-- `arr.reduce((s, v) => s + v, 0)`. -/
def jsum (l : List JSNum) : JSNum := l.foldl JSNum.add (JSNum.num 0)

/-- `Math.max(...arr)`: left fold starting at `-Infinity`. -/
def jmaxList (l : List JSNum) : JSNum := l.foldl JSNum.max2 JSNum.ninf

/-- `Math.min(...arr)`: left fold starting at `Infinity`. -/
def jminList (l : List JSNum) : JSNum := l.foldl JSNum.min2 JSNum.inf

/-- `Math.sqrt`, parameterised by a square-root function on nonnegative
rationals: negative finite arguments and `-Infinity` give `NaN`. -/
def jsqrt (sq : ℚ → ℚ) : JSNum → JSNum
  | JSNum.num q => if q < 0 then JSNum.nan else JSNum.num (sq q)
  | JSNum.nan => JSNum.nan
  | JSNum.inf => JSNum.inf
  | JSNum.ninf => JSNum.nan

/-- Decimal rendering of a rational with `d` fractional digits, used for the
`toFixed` calls inside human-readable `reason` strings (rounding mode of
`toFixed` approximated by round-half-up; no claim depends on these digits). -/
def decStr (q : ℚ) (d : ℕ) : String :=
  let scaled : ℤ := ⌊|q| * (10 : ℚ) ^ d + 1 / 2⌋
  let n : ℕ := scaled.toNat
  let ip : ℕ := n / 10 ^ d
  let fp : ℕ := n % 10 ^ d
  let sign := if q < 0 ∧ n ≠ 0 then "-" else ""
  if d = 0 then sign ++ toString ip
  else
    let fpStr := toString fp
    let fpPad := String.mk (List.replicate (d - fpStr.length) '0') ++ fpStr
    sign ++ toString ip ++ "." ++ fpPad

/-- `x.toFixed(d)` for a JavaScript number. -/
def jsToFixed (x : JSNum) (d : ℕ) : String :=
  match x with
  | JSNum.num q => decStr q d
  | JSNum.nan => "NaN"
  | JSNum.inf => "Infinity"
  | JSNum.ninf => "-Infinity"

/-- Natural-number indexing (`arr[i]` with `i ≥ 0`): `NaN` when out of range. -/
def jsGet (l : List JSNum) (i : ℕ) : JSNum := l.getD i JSNum.nan

/-- The three-way trade action (string literals `'BUY' | 'SELL' | 'HOLD'`). -/
inductive Action where
  | BUY : Action
  | SELL : Action
  | HOLD : Action
deriving DecidableEq, Repr

/-- Result record of `calculateRSI` / `calculateStochastic`:
`{ value, signal, strength }`. -/
structure IndicatorResult where
  value : JSNum
  signal : Action
  strength : JSNum
deriving DecidableEq, Repr

/-- Result record of `calculateMACD`: `{ macd, signal, histogram }`. -/
structure MACDResult where
  macd : JSNum
  signal : JSNum
  histogram : JSNum
deriving DecidableEq, Repr

/-- Result record of `calculateBollingerBands`: `{ upper, middle, lower }`. -/
structure BBResult where
  upper : JSNum
  middle : JSNum
  lower : JSNum
deriving DecidableEq, Repr

/-- The `TradeSignal` record.  The `timestamp: Date` field (wall-clock time of
construction, `new Date()`) is outside the pure computation and is omitted. -/
structure TradeSignal where
  symbol : String
  action : Action
  confidence : JSNum
  price : JSNum
  duration : String
  reason : String
  stopLoss : JSNum
  takeProfit : JSNum
  leverage : JSNum
deriving DecidableEq, Repr

/-- `confOK s`: the signal's confidence is `0` when its action is HOLD and a
strictly positive finite number otherwise (the two directions of the
HOLD-confidence invariant). -/
def confOK (s : TradeSignal) : Prop :=
  (s.action = Action.HOLD → s.confidence = JSNum.num 0) ∧
  (s.action ≠ Action.HOLD → s.confidence.isPos)

/-- `sidesOK s`: the stop-loss and take-profit sit strictly on the protective
side of the entry price for the signal's direction (stop below entry and
target above it for BUY, the inverse for SELL). -/
def sidesOK (s : TradeSignal) : Prop :=
  (s.action = Action.BUY →
    s.stopLoss.lt s.price = true ∧ s.price.lt s.takeProfit = true) ∧
  (s.action = Action.SELL →
    s.takeProfit.lt s.price = true ∧ s.price.lt s.stopLoss = true)

namespace TechnicalIndicators

/-- The successive differences `prices[i] - prices[i-1]`, `i = 1 .. len-1`
(the single loop of `calculateRSI`, which pushes one gain and one loss per
difference, is rendered as this list of differences plus two maps). -/
def changes (prices : List JSNum) : List JSNum :=
  (List.range (prices.length - 1)).map fun i => (jsGet prices (i + 1)).sub (jsGet prices i)

/-- `TechnicalIndicators.calculateSMA`. -/
def calculateSMA (prices : List JSNum) (period : ℕ) : JSNum :=
  if prices.length < period then JSNum.num 0
  else (jsum (sliceLast prices period)).div (JSNum.num (period : ℚ))

/-- `TechnicalIndicators.calculateEMA`: seed with the SMA of the first
`period` samples, then fold the recurrence over the remaining samples. -/
def calculateEMA (prices : List JSNum) (period : ℕ) : JSNum :=
  if prices.length < period then JSNum.num 0
  else
    let multiplier := (JSNum.num 2).div (JSNum.num ((period : ℚ) + 1))
    let seed := calculateSMA (prices.take period) period
    (prices.drop period).foldl (fun ema p => ((p.sub ema).mul multiplier).add ema) seed

/-- `TechnicalIndicators.calculateRSI`. -/
def calculateRSI (prices : List JSNum) (period : ℕ) : IndicatorResult :=
  if prices.length < period + 1 then
    ⟨JSNum.num 50, Action.HOLD, JSNum.num 0⟩
  else
    let gains := (changes prices).map fun c =>
      if (JSNum.num 0).lt c then c else JSNum.num 0
    let losses := (changes prices).map fun c =>
      if (JSNum.num 0).lt c then JSNum.num 0 else c.neg
    let avgGain := (jsum (sliceLast gains period)).div (JSNum.num (period : ℚ))
    let avgLoss := (jsum (sliceLast losses period)).div (JSNum.num (period : ℚ))
    let rs := avgGain.div avgLoss
    let rsi := (JSNum.num 100).sub ((JSNum.num 100).div ((JSNum.num 1).add rs))
    let sigStr : Action × JSNum :=
      if rsi.lt (JSNum.num 30) then
        (Action.BUY, ((JSNum.num 30).sub rsi).div (JSNum.num 30))
      else if (JSNum.num 70).lt rsi then
        (Action.SELL, (rsi.sub (JSNum.num 70)).div (JSNum.num 30))
      else (Action.HOLD, JSNum.num 0)
    ⟨rsi, sigStr.1, sigStr.2⟩

/-- `TechnicalIndicators.calculateMACD`.  Note the signal line: an `EMA(9)`
over only the last 26 prices, not a recursive EMA of the MACD line. -/
def calculateMACD (prices : List JSNum) : MACDResult :=
  if prices.length < 26 then ⟨JSNum.num 0, JSNum.num 0, JSNum.num 0⟩
  else
    let ema12 := calculateEMA prices 12
    let ema26 := calculateEMA prices 26
    let macdLine := ema12.sub ema26
    let signalLine := calculateEMA (sliceLast prices 26) 9
    ⟨macdLine, signalLine, macdLine.sub signalLine⟩

/-- `TechnicalIndicators.calculateBollingerBands` (parameterised by the
square-root function `sq` standing for `Math.sqrt`). -/
def calculateBollingerBands (sq : ℚ → ℚ) (prices : List JSNum) (period : ℕ) : BBResult :=
  if prices.length < period then ⟨JSNum.num 0, JSNum.num 0, JSNum.num 0⟩
  else
    let sma := calculateSMA prices period
    let variance := ((sliceLast prices period).foldl
      (fun s p => s.add ((p.sub sma).mul (p.sub sma))) (JSNum.num 0)).div
      (JSNum.num (period : ℚ))
    let stdDev := jsqrt sq variance
    ⟨sma.add ((JSNum.num 2).mul stdDev), sma, sma.sub ((JSNum.num 2).mul stdDev)⟩

/-- `TechnicalIndicators.calculateStochastic`. -/
def calculateStochastic (prices high low : List JSNum) (period : ℕ) : IndicatorResult :=
  if prices.length < period then
    ⟨JSNum.num 50, Action.HOLD, JSNum.num 0⟩
  else
    let recentHigh := jmaxList (sliceLast high period)
    let recentLow := jminList (sliceLast low period)
    let currentPrice := jsLast prices
    let k := ((currentPrice.sub recentLow).div (recentHigh.sub recentLow)).mul (JSNum.num 100)
    let sigStr : Action × JSNum :=
      if k.lt (JSNum.num 20) then
        (Action.BUY, ((JSNum.num 20).sub k).div (JSNum.num 20))
      else if (JSNum.num 80).lt k then
        (Action.SELL, (k.sub (JSNum.num 80)).div (JSNum.num 20))
      else (Action.HOLD, JSNum.num 0)
    ⟨k, sigStr.1, sigStr.2⟩

/-- Typical prices `(close + high + low) / 3`, index-aligned with `prices`. -/
def typicalPrices (prices high low : List JSNum) : List JSNum :=
  (List.range prices.length).map fun i =>
    (((jsGet prices i).add (jsGet high i)).add (jsGet low i)).div (JSNum.num 3)

/-- `TechnicalIndicators.calculateCCI`. -/
def calculateCCI (prices high low : List JSNum) (period : ℕ) : JSNum :=
  if prices.length < period then JSNum.num 0
  else
    let tp := typicalPrices prices high low
    let sma := calculateSMA tp period
    let meanDeviation := ((sliceLast tp period).foldl
      (fun s t => s.add (t.sub sma).abs) (JSNum.num 0)).div (JSNum.num (period : ℚ))
    if meanDeviation = JSNum.num 0 then JSNum.num 0
    else ((jsLast tp).sub sma).div ((JSNum.num (15 / 1000 : ℚ)).mul meanDeviation)

/-- The true-range values of `calculateATR`. -/
def trValues (high low prices : List JSNum) : List JSNum :=
  (List.range (high.length - 1)).map fun i =>
    ((jsGet high (i + 1)).sub (jsGet low (i + 1))).max2
      ((((jsGet high (i + 1)).sub (jsGet prices i)).abs).max2
        (((jsGet low (i + 1)).sub (jsGet prices i)).abs))

/-- `TechnicalIndicators.calculateATR`. -/
def calculateATR (high low prices : List JSNum) (period : ℕ) : JSNum :=
  if high.length < period then JSNum.num 0
  else calculateSMA (trValues high low prices) period

end TechnicalIndicators

/-- Side of a vote in the multi-indicator voting strategies. -/
inductive Vote where
  | buy : Vote
  | sell : Vote
deriving DecidableEq, Repr

/-- One step of the mutable accumulation
`if (cond) { buySignals++ / sellSignals++; totalConfidence += x }`
used by the voting strategies: state is `(buySignals, sellSignals, total)`. -/
def tallyStep : ℕ × ℕ × JSNum → Bool × Vote × JSNum → ℕ × ℕ × JSNum
  | (b, s, t), (cond, v, x) =>
    if cond then
      match v with
      | Vote.buy => (b + 1, s, t.add x)
      | Vote.sell => (b, s + 1, t.add x)
    else (b, s, t)

/-- The sequence of `if (cond) { ...++; totalConfidence += x }` statements of
a voting strategy, rendered as a left fold in program order. -/
def tally (l : List (Bool × Vote × JSNum)) : ℕ × ℕ × JSNum :=
  l.foldl tallyStep (0, 0, JSNum.num 0)

namespace TradingStrategies

open TechnicalIndicators
open JSNum (num)
open Action (BUY SELL HOLD)

/-- `TradingStrategies.multiTimeframeRSI` (strategy 1). -/
def multiTimeframeRSI (prices high low : List JSNum) (symbol : String) : TradeSignal :=
  let rsi5 := calculateRSI (sliceLast prices 5) 5
  let rsi14 := calculateRSI prices 14
  let rsi21 := calculateRSI (sliceLast prices 21) 21
  let currentPrice := jsLast prices
  let sma20 := calculateSMA prices 20
  let v := tally [
    (rsi5.signal == BUY, Vote.buy, rsi5.strength),
    (rsi5.signal == SELL, Vote.sell, rsi5.strength),
    (rsi14.signal == BUY, Vote.buy, rsi14.strength),
    (rsi14.signal == SELL, Vote.sell, rsi14.strength),
    (rsi21.signal == BUY, Vote.buy, rsi21.strength),
    (rsi21.signal == SELL, Vote.sell, rsi21.strength),
    ((sma20.mul (num (102 / 100))).lt currentPrice, Vote.buy, num (2 / 10)),
    (currentPrice.lt (sma20.mul (num (98 / 100))), Vote.sell, num (2 / 10))]
  let confidence := (v.2.2.div (num 4)).min2 (num (95 / 100))
  let action := if v.2.1 < v.1 then BUY else if v.1 < v.2.1 then SELL else HOLD
  let stopLoss := if action = BUY then currentPrice.mul (num (98 / 100))
    else currentPrice.mul (num (102 / 100))
  let takeProfit := if action = BUY then currentPrice.mul (num (104 / 100))
    else currentPrice.mul (num (96 / 100))
  { symbol := symbol, action := action,
    confidence := if action = HOLD then num 0 else confidence,
    price := currentPrice, duration := "15m-1h",
    reason := "Multi-timeframe RSI: " ++ toString v.1 ++ "B/" ++ toString v.2.1 ++ "S signals",
    stopLoss := stopLoss, takeProfit := takeProfit, leverage := num 3 }

/-- `TradingStrategies.trendFollowingMACD` (strategy 2). -/
def trendFollowingMACD (prices : List JSNum) (symbol : String) : TradeSignal :=
  let macd := calculateMACD prices
  let ema9 := calculateEMA prices 9
  let ema21 := calculateEMA prices 21
  let currentPrice := jsLast prices
  let histContrib := (macd.histogram.abs.mul (num 100)).min2 (num (3 / 10))
  let v := tally [
    (macd.signal.lt macd.macd && (num 0).lt macd.histogram, Vote.buy, histContrib),
    (macd.macd.lt macd.signal && macd.histogram.lt (num 0), Vote.sell, histContrib),
    (ema21.lt ema9, Vote.buy, num (2 / 10)),
    (!(ema21.lt ema9), Vote.sell, num (2 / 10)),
    (ema21.lt currentPrice, Vote.buy, num (1 / 10)),
    (!(ema21.lt currentPrice), Vote.sell, num (1 / 10))]
  let confidence := (v.2.2.div (num 3)).min2 (num (9 / 10))
  let action := if v.2.1 < v.1 then BUY else if v.1 < v.2.1 then SELL else HOLD
  let stopLoss := if action = BUY then currentPrice.mul (num (97 / 100))
    else currentPrice.mul (num (103 / 100))
  let takeProfit := if action = BUY then currentPrice.mul (num (106 / 100))
    else currentPrice.mul (num (94 / 100))
  { symbol := symbol, action := action,
    confidence := if action = HOLD then num 0 else confidence,
    price := currentPrice, duration := "1h-4h",
    reason := "Trend Following: MACD "
      ++ (if (num 0).lt macd.histogram then "Bullish" else "Bearish")
      ++ ", EMA" ++ (if ema21.lt ema9 then " Bull" else " Bear"),
    stopLoss := stopLoss, takeProfit := takeProfit, leverage := num 5 }

/-- `TradingStrategies.meanReversionBB` (strategy 3). -/
def meanReversionBB (sq : ℚ → ℚ) (prices high low : List JSNum) (symbol : String) : TradeSignal :=
  let bb := calculateBollingerBands sq prices 20
  let rsi := calculateRSI prices 14
  let stochastic := calculateStochastic prices high low 14
  let currentPrice := jsLast prices
  let v := tally [
    (currentPrice.lt bb.lower, Vote.buy,
      (((bb.lower.sub currentPrice).div bb.lower).mul (num 1000)).min2 (num (4 / 10))),
    (bb.upper.lt currentPrice, Vote.sell,
      (((currentPrice.sub bb.upper).div bb.upper).mul (num 1000)).min2 (num (4 / 10))),
    (rsi.signal == BUY, Vote.buy, rsi.strength),
    (rsi.signal == SELL, Vote.sell, rsi.strength),
    (stochastic.signal == BUY, Vote.buy, stochastic.strength),
    (stochastic.signal == SELL, Vote.sell, stochastic.strength)]
  let confidence := (v.2.2.div (num 3)).min2 (num (85 / 100))
  let action := if v.2.1 < v.1 then BUY else if v.1 < v.2.1 then SELL else HOLD
  let stopLoss := if action = BUY then currentPrice.mul (num (99 / 100))
    else currentPrice.mul (num (101 / 100))
  { symbol := symbol, action := action,
    confidence := if action = HOLD then num 0 else confidence,
    price := currentPrice, duration := "5m-15m",
    reason := "Mean Reversion: BB"
      ++ (if currentPrice.lt bb.lower then " Oversold" else " Overbought")
      ++ ", RSI:" ++ jsToFixed rsi.value 1,
    stopLoss := stopLoss, takeProfit := bb.middle, leverage := num 2 }

/-- The insufficient-data guard `TradeSignal` returned by the explicitly
guarded strategies (HOLD, zero confidence and levels, leverage 1). -/
def guardSignal (prices : List JSNum) (symbol reason : String) : TradeSignal :=
  { symbol := symbol, action := HOLD, confidence := num 0,
    price := jsLast prices, duration := "N/A", reason := reason,
    stopLoss := num 0, takeProfit := num 0, leverage := num 1 }

/-- `TradingStrategies.volumeWeightedMACD` (strategy 4). -/
def volumeWeightedMACD (prices volumes : List JSNum) (symbol : String) : TradeSignal :=
  if prices.length < 26 ∨ volumes.length < 26 then
    guardSignal prices symbol "Insufficient data for VW-MACD"
  else
    let currentPrice := jsLast prices
    let vwPrices := (List.range prices.length).map fun i =>
      (jsGet prices i).mul (jsOr (jsGet volumes i) (num 1))
    let macd := calculateMACD vwPrices
    let ac : Action × JSNum :=
      if macd.signal.lt macd.macd && (num 0).lt macd.histogram then
        (BUY, (macd.histogram.abs.mul (num 200)).min2 (num (9 / 10)))
      else if macd.macd.lt macd.signal && macd.histogram.lt (num 0) then
        (SELL, (macd.histogram.abs.mul (num 200)).min2 (num (9 / 10)))
      else (HOLD, num 0)
    let stopLoss := if ac.1 = BUY then currentPrice.mul (num (97 / 100))
      else currentPrice.mul (num (103 / 100))
    let takeProfit := if ac.1 = BUY then currentPrice.mul (num (106 / 100))
      else currentPrice.mul (num (94 / 100))
    { symbol := symbol, action := ac.1,
      confidence := if ac.1 = HOLD then num 0 else ac.2,
      price := currentPrice, duration := "1h-4h",
      reason := "Volume-Weighted MACD: "
        ++ (if (num 0).lt macd.histogram then "Bullish" else "Bearish"),
      stopLoss := stopLoss, takeProfit := takeProfit, leverage := num 4 }

/-- `TradingStrategies.ichimokuCloud` (strategy 5).  Note it derives all six
levels from the close series alone. -/
def ichimokuCloud (prices : List JSNum) (symbol : String) : TradeSignal :=
  if prices.length < 52 then
    guardSignal prices symbol "Insufficient data for Ichimoku"
  else
    let currentPrice := jsLast prices
    let high9 := jmaxList (sliceLast prices 9)
    let low9 := jminList (sliceLast prices 9)
    let high26 := jmaxList (sliceLast prices 26)
    let low26 := jminList (sliceLast prices 26)
    let high52 := jmaxList (sliceLast prices 52)
    let low52 := jminList (sliceLast prices 52)
    let conversionLine := (high9.add low9).div (num 2)
    let baseLine := (high26.add low26).div (num 2)
    let leadingSpanA := (conversionLine.add baseLine).div (num 2)
    let leadingSpanB := (high52.add low52).div (num 2)
    let ac : Action × JSNum :=
      if leadingSpanA.lt currentPrice && leadingSpanB.lt currentPrice
          && baseLine.lt conversionLine then (BUY, num (85 / 100))
      else if currentPrice.lt leadingSpanA && currentPrice.lt leadingSpanB
          && conversionLine.lt baseLine then (SELL, num (85 / 100))
      else (HOLD, num 0)
    let stopLoss := if ac.1 = BUY then currentPrice.mul (num (98 / 100))
      else currentPrice.mul (num (102 / 100))
    let takeProfit := if ac.1 = BUY then currentPrice.mul (num (105 / 100))
      else currentPrice.mul (num (95 / 100))
    { symbol := symbol, action := ac.1,
      confidence := if ac.1 = HOLD then num 0 else ac.2,
      price := currentPrice, duration := "4h-1d",
      reason := "Ichimoku Cloud: " ++ (if ac.1 = BUY then "Price above cloud"
        else if ac.1 = SELL then "Price below cloud" else "Neutral"),
      stopLoss := stopLoss, takeProfit := takeProfit, leverage := num 3 }

/-- `TradingStrategies.supertrendStrategy` (strategy 6). -/
def supertrendStrategy (prices high low : List JSNum) (symbol : String) : TradeSignal :=
  if prices.length < 20 then
    guardSignal prices symbol "Insufficient data for Supertrend"
  else
    let currentPrice := jsLast prices
    let sma10 := calculateSMA prices 10
    let sma20 := calculateSMA prices 20
    let ac : Action × JSNum :=
      if sma10.lt currentPrice && sma20.lt sma10 then (BUY, num (75 / 100))
      else if currentPrice.lt sma10 && sma10.lt sma20 then (SELL, num (75 / 100))
      else (HOLD, num 0)
    let stopLoss := if ac.1 = BUY then currentPrice.mul (num (98 / 100))
      else currentPrice.mul (num (102 / 100))
    let takeProfit := if ac.1 = BUY then currentPrice.mul (num (104 / 100))
      else currentPrice.mul (num (96 / 100))
    { symbol := symbol, action := ac.1,
      confidence := if ac.1 = HOLD then num 0 else ac.2,
      price := currentPrice, duration := "30m-2h",
      reason := "Supertrend: " ++ (if ac.1 = BUY then "Uptrend confirmed"
        else if ac.1 = SELL then "Downtrend confirmed" else "No trend"),
      stopLoss := stopLoss, takeProfit := takeProfit, leverage := num 4 }

/-- `TradingStrategies.parabolicSAR` (strategy 7). -/
def parabolicSAR (prices high low : List JSNum) (symbol : String) : TradeSignal :=
  if prices.length < 10 then
    guardSignal prices symbol "Insufficient data for Parabolic SAR"
  else
    let currentPrice := jsLast prices
    let recentHigh := jmaxList (sliceLast high 5)
    let recentLow := jminList (sliceLast low 5)
    let ac : Action × JSNum :=
      if (recentHigh.mul (num (101 / 100))).lt currentPrice then (BUY, num (75 / 100))
      else if currentPrice.lt (recentLow.mul (num (99 / 100))) then (SELL, num (75 / 100))
      else (HOLD, num 0)
    let stopLoss := if ac.1 = BUY then recentLow else recentHigh
    let takeProfit := if ac.1 = BUY then currentPrice.mul (num (103 / 100))
      else currentPrice.mul (num (97 / 100))
    { symbol := symbol, action := ac.1,
      confidence := if ac.1 = HOLD then num 0 else ac.2,
      price := currentPrice, duration := "1h-6h",
      reason := "Parabolic SAR: " ++ (if ac.1 = BUY then "Trend reversal up"
        else if ac.1 = SELL then "Trend reversal down" else "No reversal"),
      stopLoss := stopLoss, takeProfit := takeProfit, leverage := num 3 }

/-- `TradingStrategies.adxMomentum` (strategy 8). -/
def adxMomentum (prices high low : List JSNum) (symbol : String) : TradeSignal :=
  if prices.length < 14 then
    guardSignal prices symbol "Insufficient data for ADX"
  else
    let currentPrice := jsLast prices
    let p5 := jsIdx prices ((prices.length : ℤ) - 5)
    let trendUp := p5.lt currentPrice
    let volatility := ((currentPrice.sub p5).div p5).abs
    let ac : Action × JSNum :=
      if trendUp && (num (2 / 100)).lt volatility then
        (BUY, (volatility.mul (num 10)).min2 (num (8 / 10)))
      else if !trendUp && (num (2 / 100)).lt volatility then
        (SELL, (volatility.mul (num 10)).min2 (num (8 / 10)))
      else (HOLD, num 0)
    let stopLoss := if ac.1 = BUY then currentPrice.mul (num (98 / 100))
      else currentPrice.mul (num (102 / 100))
    let takeProfit := if ac.1 = BUY then currentPrice.mul (num (105 / 100))
      else currentPrice.mul (num (95 / 100))
    { symbol := symbol, action := ac.1,
      confidence := if ac.1 = HOLD then num 0 else ac.2,
      price := currentPrice, duration := "2h-1d",
      reason := "ADX Momentum: " ++ (if trendUp then "UP" else "DOWN")
        ++ " trend with " ++ jsToFixed (volatility.mul (num 100)) 1 ++ "% volatility",
      stopLoss := stopLoss, takeProfit := takeProfit, leverage := num 2 }

/-- `TradingStrategies.rsiDivergence` (strategy 9): no length guard of its
own beyond the RSI default. -/
def rsiDivergence (prices high low : List JSNum) (symbol : String) : TradeSignal :=
  let rsi := calculateRSI prices 14
  let currentPrice := jsLast prices
  let p5 := jsIdx prices ((prices.length : ℤ) - 5)
  let ac : Action × JSNum :=
    if rsi.value.lt (num 30) && p5.lt currentPrice then (BUY, num (7 / 10))
    else if (num 70).lt rsi.value && currentPrice.lt p5 then (SELL, num (7 / 10))
    else (HOLD, num 0)
  let stopLoss := if ac.1 = BUY then currentPrice.mul (num (98 / 100))
    else currentPrice.mul (num (102 / 100))
  let takeProfit := if ac.1 = BUY then currentPrice.mul (num (103 / 100))
    else currentPrice.mul (num (97 / 100))
  { symbol := symbol, action := ac.1,
    confidence := if ac.1 = HOLD then num 0 else ac.2,
    price := currentPrice, duration := "1h-4h",
    reason := "RSI Divergence: " ++ jsToFixed rsi.value 1,
    stopLoss := stopLoss, takeProfit := takeProfit, leverage := num 3 }

/-- `TradingStrategies.macdHistogram` (strategy 10). -/
def macdHistogram (prices : List JSNum) (symbol : String) : TradeSignal :=
  let macd := calculateMACD prices
  let currentPrice := jsLast prices
  let ac : Action × JSNum :=
    if (num 0).lt macd.histogram && (macd.signal.mul (num (5 / 10))).lt macd.histogram then
      (BUY, (macd.histogram.abs.mul (num 150)).min2 (num (8 / 10)))
    else if macd.histogram.lt (num 0) && macd.histogram.lt (macd.signal.mul (num (5 / 10))) then
      (SELL, (macd.histogram.abs.mul (num 150)).min2 (num (8 / 10)))
    else (HOLD, num 0)
  let stopLoss := if ac.1 = BUY then currentPrice.mul (num (98 / 100))
    else currentPrice.mul (num (102 / 100))
  let takeProfit := if ac.1 = BUY then currentPrice.mul (num (104 / 100))
    else currentPrice.mul (num (96 / 100))
  { symbol := symbol, action := ac.1,
    confidence := if ac.1 = HOLD then num 0 else ac.2,
    price := currentPrice, duration := "30m-2h",
    reason := "MACD Histogram: " ++ (if (num 0).lt macd.histogram then "Bullish" else "Bearish")
      ++ " momentum",
    stopLoss := stopLoss, takeProfit := takeProfit, leverage := num 4 }

/-- `TradingStrategies.bollingerSqueeze` (strategy 11). -/
def bollingerSqueeze (sq : ℚ → ℚ) (prices high low : List JSNum) (symbol : String) : TradeSignal :=
  let bb := calculateBollingerBands sq prices 20
  let currentPrice := jsLast prices
  let bbWidth := (bb.upper.sub bb.lower).div bb.middle
  let ac : Action × JSNum :=
    if bbWidth.lt (num (1 / 10)) then
      if bb.middle.lt currentPrice then (BUY, num (8 / 10)) else (SELL, num (8 / 10))
    else (HOLD, num 0)
  let stopLoss := if ac.1 = BUY then bb.lower else bb.upper
  let takeProfit := if ac.1 = BUY then currentPrice.mul (num (105 / 100))
    else currentPrice.mul (num (95 / 100))
  { symbol := symbol, action := ac.1,
    confidence := if ac.1 = HOLD then num 0 else ac.2,
    price := currentPrice, duration := "15m-1h",
    reason := "Bollinger Squeeze: Breakout expected",
    stopLoss := stopLoss, takeProfit := takeProfit, leverage := num 5 }

/-- `TradingStrategies.stochasticOscillator` (strategy 12). -/
def stochasticOscillator (prices high low : List JSNum) (symbol : String) : TradeSignal :=
  let stochastic := calculateStochastic prices high low 14
  let currentPrice := jsLast prices
  let ac : Action × JSNum :=
    if stochastic.value.lt (num 20) then (BUY, num (7 / 10))
    else if (num 80).lt stochastic.value then (SELL, num (7 / 10))
    else (HOLD, num 0)
  let stopLoss := if ac.1 = BUY then currentPrice.mul (num (99 / 100))
    else currentPrice.mul (num (101 / 100))
  let takeProfit := if ac.1 = BUY then currentPrice.mul (num (103 / 100))
    else currentPrice.mul (num (97 / 100))
  { symbol := symbol, action := ac.1,
    confidence := if ac.1 = HOLD then num 0 else ac.2,
    price := currentPrice, duration := "15m-1h",
    reason := "Stochastic: " ++ jsToFixed stochastic.value 1,
    stopLoss := stopLoss, takeProfit := takeProfit, leverage := num 3 }

/-- `TradingStrategies.williamsR` (strategy 13). -/
def williamsR (prices high low : List JSNum) (symbol : String) : TradeSignal :=
  let currentPrice := jsLast prices
  let highestHigh := jmaxList (sliceLast high 14)
  let lowestLow := jminList (sliceLast low 14)
  let wr := ((highestHigh.sub currentPrice).div (highestHigh.sub lowestLow)).mul (num (-100))
  let ac : Action × JSNum :=
    if wr.lt (num (-80)) then (BUY, num (7 / 10))
    else if (num (-20)).lt wr then (SELL, num (7 / 10))
    else (HOLD, num 0)
  let stopLoss := if ac.1 = BUY then currentPrice.mul (num (99 / 100))
    else currentPrice.mul (num (101 / 100))
  let takeProfit := if ac.1 = BUY then currentPrice.mul (num (103 / 100))
    else currentPrice.mul (num (97 / 100))
  { symbol := symbol, action := ac.1,
    confidence := if ac.1 = HOLD then num 0 else ac.2,
    price := currentPrice, duration := "15m-1h",
    reason := "Williams %R: " ++ jsToFixed wr 1,
    stopLoss := stopLoss, takeProfit := takeProfit, leverage := num 3 }

/-- `TradingStrategies.cciStrategy` (strategy 14). -/
def cciStrategy (prices high low : List JSNum) (symbol : String) : TradeSignal :=
  let cci := calculateCCI prices high low 20
  let currentPrice := jsLast prices
  let ac : Action × JSNum :=
    if cci.lt (num (-100)) then (BUY, num (7 / 10))
    else if (num 100).lt cci then (SELL, num (7 / 10))
    else (HOLD, num 0)
  let stopLoss := if ac.1 = BUY then currentPrice.mul (num (99 / 100))
    else currentPrice.mul (num (101 / 100))
  let takeProfit := if ac.1 = BUY then currentPrice.mul (num (103 / 100))
    else currentPrice.mul (num (97 / 100))
  { symbol := symbol, action := ac.1,
    confidence := if ac.1 = HOLD then num 0 else ac.2,
    price := currentPrice, duration := "30m-2h",
    reason := "CCI: " ++ jsToFixed cci 1,
    stopLoss := stopLoss, takeProfit := takeProfit, leverage := num 3 }

/-- `TradingStrategies.atrBreakout` (strategy 15). -/
def atrBreakout (prices high low : List JSNum) (symbol : String) : TradeSignal :=
  let atr := calculateATR high low prices 14
  let currentPrice := jsLast prices
  let prevPrice := jsIdx prices ((prices.length : ℤ) - 2)
  let ac : Action × JSNum :=
    if (prevPrice.add atr).lt currentPrice then (BUY, num (75 / 100))
    else if currentPrice.lt (prevPrice.sub atr) then (SELL, num (75 / 100))
    else (HOLD, num 0)
  let stopLoss := if ac.1 = BUY then currentPrice.sub (atr.mul (num (15 / 10)))
    else currentPrice.add (atr.mul (num (15 / 10)))
  let takeProfit := if ac.1 = BUY then currentPrice.add (atr.mul (num 2))
    else currentPrice.sub (atr.mul (num 2))
  { symbol := symbol, action := ac.1,
    confidence := if ac.1 = HOLD then num 0 else ac.2,
    price := currentPrice, duration := "1h-4h",
    reason := "ATR Breakout: " ++ jsToFixed ((atr.div currentPrice).mul (num 100)) 2
      ++ "% volatility",
    stopLoss := stopLoss, takeProfit := takeProfit, leverage := num 4 }

/-- `TradingStrategies.vwapStrategy` (strategy 16). -/
def vwapStrategy (prices volumes high low : List JSNum) (symbol : String) : TradeSignal :=
  if prices.length < 20 ∨ volumes.length < 20 then
    guardSignal prices symbol "Insufficient data for VWAP"
  else
    let currentPrice := jsLast prices
    let tp := typicalPrices prices high low
    let vwap := (jsum ((List.range tp.length).map fun i =>
      (jsGet tp i).mul (jsGet volumes i))).div (jsum volumes)
    let ac : Action × JSNum :=
      if (vwap.mul (num (101 / 100))).lt currentPrice then (BUY, num (7 / 10))
      else if currentPrice.lt (vwap.mul (num (99 / 100))) then (SELL, num (7 / 10))
      else (HOLD, num 0)
    let takeProfit := if ac.1 = BUY then currentPrice.mul (num (102 / 100))
      else currentPrice.mul (num (98 / 100))
    { symbol := symbol, action := ac.1,
      confidence := if ac.1 = HOLD then num 0 else ac.2,
      price := currentPrice, duration := "1h-4h",
      reason := "VWAP: Price " ++ (if vwap.lt currentPrice then "above" else "below")
        ++ " VWAP",
      stopLoss := vwap, takeProfit := takeProfit, leverage := num 3 }

/-- `TradingStrategies.fibonacciRetracement` (strategy 17). -/
def fibonacciRetracement (prices high low : List JSNum) (symbol : String) : TradeSignal :=
  let currentPrice := jsLast prices
  let recentHigh := jmaxList (sliceLast high 20)
  let recentLow := jminList (sliceLast low 20)
  let diff := recentHigh.sub recentLow
  let level236 := recentHigh.sub (diff.mul (num (236 / 1000)))
  let level382 := recentHigh.sub (diff.mul (num (382 / 1000)))
  let level500 := recentHigh.sub (diff.mul (num (1 / 2)))
  let level618 := recentHigh.sub (diff.mul (num (618 / 1000)))
  let ac : Action × JSNum :=
    if currentPrice.le level618 && recentLow.lt currentPrice then (BUY, num (8 / 10))
    else if level236.le currentPrice && currentPrice.lt recentHigh then (SELL, num (8 / 10))
    else (HOLD, num 0)
  let stopLoss := if ac.1 = BUY then recentLow else recentHigh
  let takeProfit := if ac.1 = BUY then level382 else level500
  { symbol := symbol, action := ac.1,
    confidence := if ac.1 = HOLD then num 0 else ac.2,
    price := currentPrice, duration := "4h-1d",
    reason := "Fibonacci: " ++ (if ac.1 = BUY then "Support" else "Resistance") ++ " level",
    stopLoss := stopLoss, takeProfit := takeProfit, leverage := num 2 }

/-- `TradingStrategies.pivotPoints` (strategy 18). -/
def pivotPoints (prices high low : List JSNum) (symbol : String) : TradeSignal :=
  let currentPrice := jsLast prices
  let prevHigh := jsOr (jsIdx high ((high.length : ℤ) - 2)) currentPrice
  let prevLow := jsOr (jsIdx low ((low.length : ℤ) - 2)) currentPrice
  let prevClose := jsOr (jsIdx prices ((prices.length : ℤ) - 2)) currentPrice
  let pivot := ((prevHigh.add prevLow).add prevClose).div (num 3)
  let r1 := ((num 2).mul pivot).sub prevLow
  let s1 := ((num 2).mul pivot).sub prevHigh
  let ac : Action × JSNum :=
    if r1.lt currentPrice then (BUY, num (7 / 10))
    else if currentPrice.lt s1 then (SELL, num (7 / 10))
    else (HOLD, num 0)
  let takeProfit := if ac.1 = BUY then currentPrice.mul (num (102 / 100))
    else currentPrice.mul (num (98 / 100))
  { symbol := symbol, action := ac.1,
    confidence := if ac.1 = HOLD then num 0 else ac.2,
    price := currentPrice, duration := "1h-4h",
    reason := "Pivot Points: " ++ (if ac.1 = BUY then "Above R1" else "Below S1"),
    stopLoss := pivot, takeProfit := takeProfit, leverage := num 3 }

/-- `TradingStrategies.movingAverageCross` (strategy 19): note it has no
insufficient-data guard of its own. -/
def movingAverageCross (prices : List JSNum) (symbol : String) : TradeSignal :=
  let sma10 := calculateSMA prices 10
  let sma20 := calculateSMA prices 20
  let currentPrice := jsLast prices
  let ac : Action × JSNum :=
    if sma20.lt sma10 then (BUY, num (75 / 100))
    else if sma10.lt sma20 then (SELL, num (75 / 100))
    else (HOLD, num 0)
  let stopLoss := if ac.1 = BUY then currentPrice.mul (num (98 / 100))
    else currentPrice.mul (num (102 / 100))
  let takeProfit := if ac.1 = BUY then currentPrice.mul (num (104 / 100))
    else currentPrice.mul (num (96 / 100))
  { symbol := symbol, action := ac.1,
    confidence := if ac.1 = HOLD then num 0 else ac.2,
    price := currentPrice, duration := "30m-2h",
    reason := "MA Cross: SMA10 " ++ (if sma20.lt sma10 then "above" else "below")
      ++ " SMA20",
    stopLoss := stopLoss, takeProfit := takeProfit, leverage := num 4 }

/-- `TradingStrategies.emaRibbon` (strategy 20). -/
def emaRibbon (prices : List JSNum) (symbol : String) : TradeSignal :=
  let ema8 := calculateEMA prices 8
  let ema13 := calculateEMA prices 13
  let ema21 := calculateEMA prices 21
  let ema34 := calculateEMA prices 34
  let currentPrice := jsLast prices
  let ac : Action × JSNum :=
    if ema13.lt ema8 && ema21.lt ema13 && ema34.lt ema21 then (BUY, num (8 / 10))
    else if ema8.lt ema13 && ema13.lt ema21 && ema21.lt ema34 then (SELL, num (8 / 10))
    else (HOLD, num 0)
  let stopLoss := if ac.1 = BUY then currentPrice.mul (num (97 / 100))
    else currentPrice.mul (num (103 / 100))
  let takeProfit := if ac.1 = BUY then currentPrice.mul (num (105 / 100))
    else currentPrice.mul (num (95 / 100))
  { symbol := symbol, action := ac.1,
    confidence := if ac.1 = HOLD then num 0 else ac.2,
    price := currentPrice, duration := "1h-4h",
    reason := "EMA Ribbon: " ++ (if ac.1 = BUY then "Bullish alignment"
      else "Bearish alignment"),
    stopLoss := stopLoss, takeProfit := takeProfit, leverage := num 3 }

/-- `TradingStrategies.priceAction` (strategy 21): no length guard; on a
short series the out-of-range reads behave as `NaN` and no branch fires. -/
def priceAction (prices high low : List JSNum) (symbol : String) : TradeSignal :=
  let currentPrice := jsLast prices
  let prevPrice := jsIdx prices ((prices.length : ℤ) - 2)
  let prevPrevPrice := jsIdx prices ((prices.length : ℤ) - 3)
  let ac : Action × JSNum :=
    if prevPrice.lt currentPrice && prevPrevPrice.lt prevPrice then (BUY, num (7 / 10))
    else if currentPrice.lt prevPrice && prevPrice.lt prevPrevPrice then (SELL, num (7 / 10))
    else (HOLD, num 0)
  let takeProfit := if ac.1 = BUY then currentPrice.mul (num (103 / 100))
    else currentPrice.mul (num (97 / 100))
  { symbol := symbol, action := ac.1,
    confidence := if ac.1 = HOLD then num 0 else ac.2,
    price := currentPrice, duration := "15m-1h",
    reason := "Price Action: " ++ (if ac.1 = BUY then "Higher highs" else "Lower lows"),
    stopLoss := prevPrevPrice, takeProfit := takeProfit, leverage := num 3 }

/-- `TradingStrategies.supportResistance` (strategy 22). -/
def supportResistance (prices high low : List JSNum) (symbol : String) : TradeSignal :=
  let currentPrice := jsLast prices
  let recentHigh := jmaxList (sliceLast high 10)
  let recentLow := jminList (sliceLast low 10)
  let resistance := recentHigh.mul (num (99 / 100))
  let support := recentLow.mul (num (101 / 100))
  let ac : Action × JSNum :=
    if currentPrice.le support then (BUY, num (75 / 100))
    else if resistance.le currentPrice then (SELL, num (75 / 100))
    else (HOLD, num 0)
  let stopLoss := if ac.1 = BUY then recentLow else recentHigh
  let takeProfit := if ac.1 = BUY then resistance else support
  { symbol := symbol, action := ac.1,
    confidence := if ac.1 = HOLD then num 0 else ac.2,
    price := currentPrice, duration := "1h-4h",
    reason := "Support/Resistance: " ++ (if ac.1 = BUY then "Bounce from support"
      else "Rejection at resistance"),
    stopLoss := stopLoss, takeProfit := takeProfit, leverage := num 3 }

/-- `TradingStrategies.volumeProfile` (strategy 23). -/
def volumeProfile (prices volumes : List JSNum) (symbol : String) : TradeSignal :=
  let currentPrice := jsLast prices
  let avgVolume := (jsum volumes).div (num (volumes.length : ℚ))
  let currentVolume := jsLast volumes
  let prevPrice := jsIdx prices ((prices.length : ℤ) - 2)
  let ac : Action × JSNum :=
    if (avgVolume.mul (num (15 / 10))).lt currentVolume && prevPrice.lt currentPrice then
      (BUY, num (7 / 10))
    else if (avgVolume.mul (num (15 / 10))).lt currentVolume && currentPrice.lt prevPrice then
      (SELL, num (7 / 10))
    else (HOLD, num 0)
  let stopLoss := if ac.1 = BUY then currentPrice.mul (num (99 / 100))
    else currentPrice.mul (num (101 / 100))
  let takeProfit := if ac.1 = BUY then currentPrice.mul (num (103 / 100))
    else currentPrice.mul (num (97 / 100))
  { symbol := symbol, action := ac.1,
    confidence := if ac.1 = HOLD then num 0 else ac.2,
    price := currentPrice, duration := "15m-1h",
    reason := "Volume Profile: " ++ jsToFixed (currentVolume.div avgVolume) 1
      ++ "x avg volume",
    stopLoss := stopLoss, takeProfit := takeProfit, leverage := num 3 }

/-- `TradingStrategies.orderFlow` (strategy 24). -/
def orderFlow (prices volumes : List JSNum) (symbol : String) : TradeSignal :=
  let currentPrice := jsLast prices
  let priceChange := currentPrice.sub (jsIdx prices ((prices.length : ℤ) - 2))
  let volumeChange := (jsLast volumes).sub
    (jsOr (jsIdx volumes ((volumes.length : ℤ) - 2)) (jsLast volumes))
  let ac : Action × JSNum :=
    if (num 0).lt priceChange && (num 0).lt volumeChange then (BUY, num (7 / 10))
    else if priceChange.lt (num 0) && (num 0).lt volumeChange then (SELL, num (7 / 10))
    else (HOLD, num 0)
  let stopLoss := if ac.1 = BUY then currentPrice.mul (num (995 / 1000))
    else currentPrice.mul (num (1005 / 1000))
  let takeProfit := if ac.1 = BUY then currentPrice.mul (num (1015 / 1000))
    else currentPrice.mul (num (985 / 1000))
  { symbol := symbol, action := ac.1,
    confidence := if ac.1 = HOLD then num 0 else ac.2,
    price := currentPrice, duration := "5m-15m",
    reason := "Order Flow: " ++ (if (num 0).lt priceChange then "Bullish" else "Bearish")
      ++ " with volume",
    stopLoss := stopLoss, takeProfit := takeProfit, leverage := num 5 }

/-- `TradingStrategies.marketStructure` (strategy 25). -/
def marketStructure (prices high low : List JSNum) (symbol : String) : TradeSignal :=
  let currentPrice := jsLast prices
  let sma50 := calculateSMA prices 50
  let sma200 := calculateSMA prices 200
  let ac : Action × JSNum :=
    if sma50.lt currentPrice && sma200.lt sma50 then (BUY, num (8 / 10))
    else if currentPrice.lt sma50 && sma50.lt sma200 then (SELL, num (8 / 10))
    else (HOLD, num 0)
  let takeProfit := if ac.1 = BUY then currentPrice.mul (num (11 / 10))
    else currentPrice.mul (num (9 / 10))
  { symbol := symbol, action := ac.1,
    confidence := if ac.1 = HOLD then num 0 else ac.2,
    price := currentPrice, duration := "1d-1w",
    reason := "Market Structure: " ++ (if ac.1 = BUY then "Bull market" else "Bear market"),
    stopLoss := sma200, takeProfit := takeProfit, leverage := num 2 }

/-- `TradingStrategies.createHoldSignal`: the neutral stub signal. -/
def createHoldSignal (prices : List JSNum) (symbol reason : String) : TradeSignal :=
  { symbol := symbol, action := HOLD, confidence := num 0,
    price := jsLast prices, duration := "N/A", reason := reason,
    stopLoss := num 0, takeProfit := num 0, leverage := num 1 }

/-- `TradingStrategies.elliottWave` (strategy 26, capability stub). -/
def elliottWave (prices high low : List JSNum) (symbol : String) : TradeSignal :=
  createHoldSignal prices symbol "Elliott Wave analysis requires manual pattern recognition"

/-- `TradingStrategies.harmonicPatterns` (strategy 27, capability stub). -/
def harmonicPatterns (prices high low : List JSNum) (symbol : String) : TradeSignal :=
  createHoldSignal prices symbol "Harmonic patterns require manual pattern recognition"

/-- `TradingStrategies.gartleyPattern` (strategy 28, capability stub). -/
def gartleyPattern (prices high low : List JSNum) (symbol : String) : TradeSignal :=
  createHoldSignal prices symbol "Gartley pattern requires manual identification"

/-- `TradingStrategies.butterflyPattern` (strategy 29, capability stub). -/
def butterflyPattern (prices high low : List JSNum) (symbol : String) : TradeSignal :=
  createHoldSignal prices symbol "Butterfly pattern requires manual identification"

/-- `TradingStrategies.batPattern` (strategy 30, capability stub). -/
def batPattern (prices high low : List JSNum) (symbol : String) : TradeSignal :=
  createHoldSignal prices symbol "Bat pattern requires manual identification"

/-- `TradingStrategies.crabPattern` (strategy 31, capability stub). -/
def crabPattern (prices high low : List JSNum) (symbol : String) : TradeSignal :=
  createHoldSignal prices symbol "Crab pattern requires manual identification"

/-- `TradingStrategies.cypherPattern` (strategy 32, capability stub). -/
def cypherPattern (prices high low : List JSNum) (symbol : String) : TradeSignal :=
  createHoldSignal prices symbol "Cypher pattern requires manual identification"

/-- `TradingStrategies.deepLearningAI` (strategy 33, capability stub). -/
def deepLearningAI (prices high low : List JSNum) (symbol : String) : TradeSignal :=
  createHoldSignal prices symbol "Deep Learning AI requires trained model"

/-- `TradingStrategies.neuralNetwork` (strategy 34, capability stub). -/
def neuralNetwork (prices high low : List JSNum) (symbol : String) : TradeSignal :=
  createHoldSignal prices symbol "Neural Network requires trained model"

/-- `TradingStrategies.geneticAlgorithm` (strategy 35, capability stub). -/
def geneticAlgorithm (prices high low : List JSNum) (symbol : String) : TradeSignal :=
  createHoldSignal prices symbol "Genetic Algorithm requires optimization"

/-- `TradingStrategies.reinforcementLearning` (strategy 36, capability stub). -/
def reinforcementLearning (prices high low : List JSNum) (symbol : String) : TradeSignal :=
  createHoldSignal prices symbol "Reinforcement Learning requires trained agent"

/-- `TradingStrategies.sentimentAnalysis` (strategy 37, capability stub). -/
def sentimentAnalysis (prices high low : List JSNum) (symbol : String) : TradeSignal :=
  createHoldSignal prices symbol "Sentiment Analysis requires external data"

/-- `TradingStrategies.socialVolume` (strategy 38, capability stub). -/
def socialVolume (prices high low : List JSNum) (symbol : String) : TradeSignal :=
  createHoldSignal prices symbol "Social Volume requires social media data"

/-- `TradingStrategies.whaleTracking` (strategy 39, capability stub). -/
def whaleTracking (prices high low : List JSNum) (symbol : String) : TradeSignal :=
  createHoldSignal prices symbol "Whale Tracking requires on-chain data"

/-- `TradingStrategies.liquidityAnalysis` (strategy 40, capability stub). -/
def liquidityAnalysis (prices high low : List JSNum) (symbol : String) : TradeSignal :=
  createHoldSignal prices symbol "Liquidity Analysis requires order book data"

/-- `TradingStrategies.marketCycle` (strategy 41, capability stub). -/
def marketCycle (prices high low : List JSNum) (symbol : String) : TradeSignal :=
  createHoldSignal prices symbol "Market Cycle requires long-term data"

/-- `TradingStrategies.seasonality` (strategy 42, capability stub). -/
def seasonality (prices high low : List JSNum) (symbol : String) : TradeSignal :=
  createHoldSignal prices symbol "Seasonality requires historical seasonal data"

/-- `TradingStrategies.correlationMatrix` (strategy 43, capability stub). -/
def correlationMatrix (prices high low : List JSNum) (symbol : String) : TradeSignal :=
  createHoldSignal prices symbol "Correlation Matrix requires multiple assets"

/-- `TradingStrategies.volatilitySmile` (strategy 44, capability stub). -/
def volatilitySmile (prices high low : List JSNum) (symbol : String) : TradeSignal :=
  createHoldSignal prices symbol "Volatility Smile requires options data"

/-- `TradingStrategies.gammaExposure` (strategy 45, capability stub). -/
def gammaExposure (prices high low : List JSNum) (symbol : String) : TradeSignal :=
  createHoldSignal prices symbol "Gamma Exposure requires options flow data"

/-- `TradingStrategies.deltaNeutral` (strategy 46, capability stub). -/
def deltaNeutral (prices high low : List JSNum) (symbol : String) : TradeSignal :=
  createHoldSignal prices symbol "Delta Neutral requires options positions"

/-- `TradingStrategies.optionsFlow` (strategy 47, capability stub). -/
def optionsFlow (prices high low : List JSNum) (symbol : String) : TradeSignal :=
  createHoldSignal prices symbol "Options Flow requires options market data"

/-- `TradingStrategies.fundingRate` (strategy 48, capability stub). -/
def fundingRate (prices high low : List JSNum) (symbol : String) : TradeSignal :=
  createHoldSignal prices symbol "Funding Rate requires perpetual swap data"

/-- `TradingStrategies.openInterest` (strategy 49, capability stub). -/
def openInterest (prices high low : List JSNum) (symbol : String) : TradeSignal :=
  createHoldSignal prices symbol "Open Interest requires futures market data"

/-- `TradingStrategies.leverageRatio` (strategy 50, capability stub). -/
def leverageRatio (prices high low : List JSNum) (symbol : String) : TradeSignal :=
  createHoldSignal prices symbol "Leverage Ratio requires margin trading data"

/-- `TradingStrategies.fearGreed` (strategy 51, capability stub). -/
def fearGreed (prices high low : List JSNum) (symbol : String) : TradeSignal :=
  createHoldSignal prices symbol "Fear & Greed requires sentiment indicators"

/-- `TradingStrategies.networkGrowth` (strategy 52, capability stub). -/
def networkGrowth (prices high low : List JSNum) (symbol : String) : TradeSignal :=
  createHoldSignal prices symbol "Network Growth requires blockchain data"

/-- `TradingStrategies.onChainAnalysis` (strategy 53, capability stub). -/
def onChainAnalysis (prices high low : List JSNum) (symbol : String) : TradeSignal :=
  createHoldSignal prices symbol "On-Chain Analysis requires blockchain metrics"

/-- `TradingStrategies.mvrvZScore` (strategy 54, capability stub). -/
def mvrvZScore (prices high low : List JSNum) (symbol : String) : TradeSignal :=
  createHoldSignal prices symbol "MVRV Z-Score requires market value vs realized value data"

/-- `TradingStrategies.nvtRatio` (strategy 55, capability stub). -/
def nvtRatio (prices high low : List JSNum) (symbol : String) : TradeSignal :=
  createHoldSignal prices symbol "NVT Ratio requires network value to transaction ratio"

/-- `TradingStrategies.stockToFlow` (strategy 56, capability stub). -/
def stockToFlow (prices high low : List JSNum) (symbol : String) : TradeSignal :=
  createHoldSignal prices symbol "Stock-to-Flow requires supply issuance data"

/-- `TradingStrategies.realizedPrice` (strategy 57, capability stub). -/
def realizedPrice (prices high low : List JSNum) (symbol : String) : TradeSignal :=
  createHoldSignal prices symbol "Realized Price requires UTXO age data"

/-- `TradingStrategies.coinDaysDestroyed` (strategy 58, capability stub). -/
def coinDaysDestroyed (prices high low : List JSNum) (symbol : String) : TradeSignal :=
  createHoldSignal prices symbol "Coin Days Destroyed requires coin movement data"

/-- `TradingStrategies.getAllStrategyNames`: the fixed, ordered list of the
58 strategy names. -/
def getAllStrategyNames : List String := [
  "Multi-Timeframe RSI",
  "Trend Following MACD",
  "Mean Reversion BB",
  "Volume-Weighted MACD",
  "Ichimoku Cloud",
  "Supertrend Strategy",
  "Parabolic SAR",
  "ADX Momentum",
  "RSI Divergence",
  "MACD Histogram",
  "Bollinger Squeeze",
  "Stochastic Oscillator",
  "Williams %R",
  "CCI Strategy",
  "ATR Breakout",
  "VWAP Strategy",
  "Fibonacci Retracement",
  "Pivot Points",
  "Moving Average Cross",
  "EMA Ribbon",
  "Price Action",
  "Support Resistance",
  "Volume Profile",
  "Order Flow",
  "Market Structure",
  "Elliott Wave",
  "Harmonic Patterns",
  "Gartley Pattern",
  "Butterfly Pattern",
  "Bat Pattern",
  "Crab Pattern",
  "Cypher Pattern",
  "Deep Learning AI",
  "Neural Network",
  "Genetic Algorithm",
  "Reinforcement Learning",
  "Sentiment Analysis",
  "Social Volume",
  "Whale Tracking",
  "Liquidity Analysis",
  "Market Cycle",
  "Seasonality",
  "Correlation Matrix",
  "Volatility Smile",
  "Gamma Exposure",
  "Delta Neutral",
  "Options Flow",
  "Funding Rate",
  "Open Interest",
  "Leverage Ratio",
  "Fear & Greed",
  "Network Growth",
  "On-Chain Analysis",
  "MVRV Z-Score",
  "NVT Ratio",
  "Stock-to-Flow",
  "Realized Price",
  "Coin Days Destroyed"]

/-- `TradingStrategies.getAllSignals`: evaluates every strategy of the
catalog, in catalog order, on one input, substituting the constant all-ones
series for the volume-consuming strategies.  (The trailing
`.filter(signal => signal !== null)` of the source is the identity: every
entry has type `TradeSignal` and none is null, so it is not modelled.) -/
def getAllSignals (sq : ℚ → ℚ) (prices high low : List JSNum) (symbol : String) :
    List TradeSignal :=
  let volumes := List.replicate prices.length (num 1)
  [multiTimeframeRSI prices high low symbol,
   trendFollowingMACD prices symbol,
   meanReversionBB sq prices high low symbol,
   volumeWeightedMACD prices volumes symbol,
   ichimokuCloud prices symbol,
   supertrendStrategy prices high low symbol,
   parabolicSAR prices high low symbol,
   adxMomentum prices high low symbol,
   rsiDivergence prices high low symbol,
   macdHistogram prices symbol,
   bollingerSqueeze sq prices high low symbol,
   stochasticOscillator prices high low symbol,
   williamsR prices high low symbol,
   cciStrategy prices high low symbol,
   atrBreakout prices high low symbol,
   vwapStrategy prices volumes high low symbol,
   fibonacciRetracement prices high low symbol,
   pivotPoints prices high low symbol,
   movingAverageCross prices symbol,
   emaRibbon prices symbol,
   priceAction prices high low symbol,
   supportResistance prices high low symbol,
   volumeProfile prices volumes symbol,
   orderFlow prices volumes symbol,
   marketStructure prices high low symbol,
   elliottWave prices high low symbol,
   harmonicPatterns prices high low symbol,
   gartleyPattern prices high low symbol,
   butterflyPattern prices high low symbol,
   batPattern prices high low symbol,
   crabPattern prices high low symbol,
   cypherPattern prices high low symbol,
   deepLearningAI prices high low symbol,
   neuralNetwork prices high low symbol,
   geneticAlgorithm prices high low symbol,
   reinforcementLearning prices high low symbol,
   sentimentAnalysis prices high low symbol,
   socialVolume prices high low symbol,
   whaleTracking prices high low symbol,
   liquidityAnalysis prices high low symbol,
   marketCycle prices high low symbol,
   seasonality prices high low symbol,
   correlationMatrix prices high low symbol,
   volatilitySmile prices high low symbol,
   gammaExposure prices high low symbol,
   deltaNeutral prices high low symbol,
   optionsFlow prices high low symbol,
   fundingRate prices high low symbol,
   openInterest prices high low symbol,
   leverageRatio prices high low symbol,
   fearGreed prices high low symbol,
   networkGrowth prices high low symbol,
   onChainAnalysis prices high low symbol,
   mvrvZScore prices high low symbol,
   nvtRatio prices high low symbol,
   stockToFlow prices high low symbol,
   realizedPrice prices high low symbol,
   coinDaysDestroyed prices high low symbol]

/-- The non-HOLD signals that `getConsensusSignal` keeps
(`signals.filter(s => s.action !== 'HOLD')`). -/
def validSignals (sq : ℚ → ℚ) (prices high low : List JSNum) (symbol : String) :
    List TradeSignal :=
  (getAllSignals sq prices high low symbol).filter fun s => s.action != HOLD

/-- `TradingStrategies.getConsensusSignal`. -/
def getConsensusSignal (sq : ℚ → ℚ) (prices high low : List JSNum) (symbol : String) :
    TradeSignal :=
  let valid := validSignals sq prices high low symbol
  if valid.length = 0 then
    { symbol := symbol, action := HOLD, confidence := num 0,
      price := jsLast prices, duration := "N/A",
      reason := "No clear consensus across strategies",
      stopLoss := num 0, takeProfit := num 0, leverage := num 1 }
  else
    let buySignals := valid.filter fun s => s.action == BUY
    let sellSignals := valid.filter fun s => s.action == SELL
    let totalConfidence := valid.foldl (fun s v => s.add v.confidence) (num 0)
    let avgConfidence := totalConfidence.div (num (valid.length : ℚ))
    let action := if sellSignals.length < buySignals.length then BUY else SELL
    let consensusCount := max buySignals.length sellSignals.length
    { symbol := symbol, action := action,
      confidence := avgConfidence.mul
        ((num (consensusCount : ℚ)).div (num (valid.length : ℚ))),
      price := jsLast prices, duration := "15m-4h",
      reason := "Consensus: " ++ toString consensusCount ++ "/"
        ++ toString valid.length ++ " strategies agree",
      stopLoss := if action = BUY then (jsLast prices).mul (num (98 / 100))
        else (jsLast prices).mul (num (102 / 100)),
      takeProfit := if action = BUY then (jsLast prices).mul (num (103 / 100))
        else (jsLast prices).mul (num (97 / 100)),
      leverage := num 3 }

end TradingStrategies

/-- The uniform shape under which `getAllSignals` invokes every catalog
entry: close, high and low series plus the symbol. -/
def StratFn : Type := List JSNum → List JSNum → List JSNum → String → TradeSignal

open TradingStrategies in
/-- The documented catalog: the fixed ordered pairing of each of the 58
strategy names (as listed by `getAllStrategyNames`) with the evaluator that
`getAllSignals` runs at that position; the volume-consuming entries are
closed over the constant all-ones volume series that `getAllSignals`
substitutes. -/
def catalog (sq : ℚ → ℚ) : List (String × StratFn) := [
  ("Multi-Timeframe RSI", fun p h l s => multiTimeframeRSI p h l s),
  ("Trend Following MACD", fun p _ _ s => trendFollowingMACD p s),
  ("Mean Reversion BB", fun p h l s => meanReversionBB sq p h l s),
  ("Volume-Weighted MACD", fun p _ _ s =>
    volumeWeightedMACD p (List.replicate p.length (JSNum.num 1)) s),
  ("Ichimoku Cloud", fun p _ _ s => ichimokuCloud p s),
  ("Supertrend Strategy", fun p h l s => supertrendStrategy p h l s),
  ("Parabolic SAR", fun p h l s => parabolicSAR p h l s),
  ("ADX Momentum", fun p h l s => adxMomentum p h l s),
  ("RSI Divergence", fun p h l s => rsiDivergence p h l s),
  ("MACD Histogram", fun p _ _ s => macdHistogram p s),
  ("Bollinger Squeeze", fun p h l s => bollingerSqueeze sq p h l s),
  ("Stochastic Oscillator", fun p h l s => stochasticOscillator p h l s),
  ("Williams %R", fun p h l s => williamsR p h l s),
  ("CCI Strategy", fun p h l s => cciStrategy p h l s),
  ("ATR Breakout", fun p h l s => atrBreakout p h l s),
  ("VWAP Strategy", fun p h l s =>
    vwapStrategy p (List.replicate p.length (JSNum.num 1)) h l s),
  ("Fibonacci Retracement", fun p h l s => fibonacciRetracement p h l s),
  ("Pivot Points", fun p h l s => pivotPoints p h l s),
  ("Moving Average Cross", fun p _ _ s => movingAverageCross p s),
  ("EMA Ribbon", fun p _ _ s => emaRibbon p s),
  ("Price Action", fun p h l s => priceAction p h l s),
  ("Support Resistance", fun p h l s => supportResistance p h l s),
  ("Volume Profile", fun p _ _ s =>
    volumeProfile p (List.replicate p.length (JSNum.num 1)) s),
  ("Order Flow", fun p _ _ s =>
    orderFlow p (List.replicate p.length (JSNum.num 1)) s),
  ("Market Structure", fun p h l s => marketStructure p h l s),
  ("Elliott Wave", fun p h l s => elliottWave p h l s),
  ("Harmonic Patterns", fun p h l s => harmonicPatterns p h l s),
  ("Gartley Pattern", fun p h l s => gartleyPattern p h l s),
  ("Butterfly Pattern", fun p h l s => butterflyPattern p h l s),
  ("Bat Pattern", fun p h l s => batPattern p h l s),
  ("Crab Pattern", fun p h l s => crabPattern p h l s),
  ("Cypher Pattern", fun p h l s => cypherPattern p h l s),
  ("Deep Learning AI", fun p h l s => deepLearningAI p h l s),
  ("Neural Network", fun p h l s => neuralNetwork p h l s),
  ("Genetic Algorithm", fun p h l s => geneticAlgorithm p h l s),
  ("Reinforcement Learning", fun p h l s => reinforcementLearning p h l s),
  ("Sentiment Analysis", fun p h l s => sentimentAnalysis p h l s),
  ("Social Volume", fun p h l s => socialVolume p h l s),
  ("Whale Tracking", fun p h l s => whaleTracking p h l s),
  ("Liquidity Analysis", fun p h l s => liquidityAnalysis p h l s),
  ("Market Cycle", fun p h l s => marketCycle p h l s),
  ("Seasonality", fun p h l s => seasonality p h l s),
  ("Correlation Matrix", fun p h l s => correlationMatrix p h l s),
  ("Volatility Smile", fun p h l s => volatilitySmile p h l s),
  ("Gamma Exposure", fun p h l s => gammaExposure p h l s),
  ("Delta Neutral", fun p h l s => deltaNeutral p h l s),
  ("Options Flow", fun p h l s => optionsFlow p h l s),
  ("Funding Rate", fun p h l s => fundingRate p h l s),
  ("Open Interest", fun p h l s => openInterest p h l s),
  ("Leverage Ratio", fun p h l s => leverageRatio p h l s),
  ("Fear & Greed", fun p h l s => fearGreed p h l s),
  ("Network Growth", fun p h l s => networkGrowth p h l s),
  ("On-Chain Analysis", fun p h l s => onChainAnalysis p h l s),
  ("MVRV Z-Score", fun p h l s => mvrvZScore p h l s),
  ("NVT Ratio", fun p h l s => nvtRatio p h l s),
  ("Stock-to-Flow", fun p h l s => stockToFlow p h l s),
  ("Realized Price", fun p h l s => realizedPrice p h l s),
  ("Coin Days Destroyed", fun p h l s => coinDaysDestroyed p h l s)]

/-- A throwaway default `TradeSignal` used only as the default of `List.getD`
when stating positional facts about `getAllSignals`. -/
def dummySignal : TradeSignal :=
  { symbol := "", action := Action.HOLD, confidence := JSNum.num 0,
    price := JSNum.num 0, duration := "", reason := "",
    stopLoss := JSNum.num 0, takeProfit := JSNum.num 0, leverage := JSNum.num 0 }

/-! ### Lemmas about `JSNum` arithmetic -/

namespace JSNum

lemma isPos_num {q : ℚ} (h : 0 < q) : (num q).isPos := h

lemma good_num {q : ℚ} (h : 0 < q) : good (num q) := Or.inl h

lemma isPos.ne_zero {x : JSNum} (h : x.isPos) : x ≠ num 0 := by
  cases x with
  | num q => intro hx; rw [show q = 0 by injection hx] at h; exact lt_irrefl 0 h
  | nan => exact absurd h id
  | inf => exact absurd h id
  | ninf => exact absurd h id

lemma good_add {a b : JSNum} (ha : good a) (hb : good b) : good (a.add b) := by
  cases a with
  | num p =>
    cases b with
    | num q =>
      rcases ha with ha | ha; rcases hb with hb | hb
      · exact Or.inl (add_pos ha hb)
      · exact absurd hb (by intro h; cases h)
      · exact absurd ha (by intro h; cases h)
    | nan => rcases hb with hb | hb; exact absurd hb id; cases hb
    | inf => exact Or.inr rfl
    | ninf => rcases hb with hb | hb; exact absurd hb id; cases hb
  | nan => rcases ha with ha | ha; exact absurd ha id; cases ha
  | inf =>
    cases b with
    | num q => exact Or.inr rfl
    | nan => rcases hb with hb | hb; exact absurd hb id; cases hb
    | inf => exact Or.inr rfl
    | ninf => rcases hb with hb | hb; exact absurd hb id; cases hb
  | ninf => rcases ha with ha | ha; exact absurd ha id; cases ha

lemma good_add_zero_left {x : JSNum} (hx : good x) : good ((num 0).add x) := by
  cases x with
  | num q =>
    rcases hx with hx | hx
    · exact Or.inl (by simpa [add, isPos] using hx)
    · cases hx
  | nan => rcases hx with hx | hx; exact absurd hx id; cases hx
  | inf => exact Or.inr rfl
  | ninf => rcases hx with hx | hx; exact absurd hx id; cases hx

lemma good_div_const {x : JSNum} {c : ℚ} (hx : good x) (hc : 0 < c) :
    good (x.div (num c)) := by
  cases x with
  | num q =>
    rcases hx with hx | hx
    · exact Or.inl (by simp only [div, if_neg (ne_of_gt hc)]; exact div_pos hx hc)
    · cases hx
  | nan => rcases hx with hx | hx; exact absurd hx id; cases hx
  | inf => exact Or.inr (by simp [div, le_of_lt hc])
  | ninf => rcases hx with hx | hx; exact absurd hx id; cases hx

lemma good_mul_const {x : JSNum} {c : ℚ} (hx : good x) (hc : 0 < c) :
    good (x.mul (num c)) := by
  cases x with
  | num q =>
    rcases hx with hx | hx
    · exact Or.inl (mul_pos hx hc)
    · cases hx
  | nan => rcases hx with hx | hx; exact absurd hx id; cases hx
  | inf => exact Or.inr (by simp [mul, ne_of_gt hc, hc])
  | ninf => rcases hx with hx | hx; exact absurd hx id; cases hx

lemma isPos_min2_const {x : JSNum} {c : ℚ} (hx : good x) (hc : 0 < c) :
    (x.min2 (num c)).isPos := by
  cases x with
  | num q =>
    rcases hx with hx | hx
    · exact lt_min hx hc
    · cases hx
  | nan => rcases hx with hx | hx; exact absurd hx id; cases hx
  | inf => exact hc
  | ninf => rcases hx with hx | hx; exact absurd hx id; cases hx

lemma lt_num_true {x : JSNum} {c : ℚ} (h : x.lt (num c) = true) :
    x = ninf ∨ ∃ a, x = num a ∧ a < c := by
  cases x with
  | num a => exact Or.inr ⟨a, rfl, by simpa [lt] using h⟩
  | nan => simp [lt] at h
  | inf => simp [lt] at h
  | ninf => exact Or.inl rfl

lemma num_lt_true {x : JSNum} {c : ℚ} (h : (num c).lt x = true) :
    x = inf ∨ ∃ a, x = num a ∧ c < a := by
  cases x with
  | num a => exact Or.inr ⟨a, rfl, by simpa [lt] using h⟩
  | nan => simp [lt] at h
  | inf => exact Or.inl rfl
  | ninf => simp [lt] at h

/-- A fired "value below threshold" classification has a `good` strength
`(c - value) / d`. -/
lemma good_strength_below {x : JSNum} {c d : ℚ} (h : x.lt (num c) = true) (hd : 0 < d) :
    good (((num c).sub x).div (num d)) := by
  rcases lt_num_true h with rfl | ⟨a, rfl, ha⟩
  · exact Or.inr (by simp [sub, div, le_of_lt hd])
  · exact Or.inl (by
      simp only [sub, div, if_neg (ne_of_gt hd)]
      exact div_pos (by linarith) hd)

/-- A fired "value above threshold" classification has a `good` strength
`(value - c) / d`. -/
lemma good_strength_above {x : JSNum} {c d : ℚ} (h : (num c).lt x = true) (hd : 0 < d) :
    good ((x.sub (num c)).div (num d)) := by
  rcases num_lt_true h with rfl | ⟨a, rfl, ha⟩
  · exact Or.inr (by simp [sub, div, le_of_lt hd])
  · exact Or.inl (by
      simp only [sub, div, if_neg (ne_of_gt hd)]
      exact div_pos (by linarith) hd)

lemma good_abs_of_pos {x : JSNum} (h : (num 0).lt x = true) : good x.abs := by
  rcases num_lt_true h with rfl | ⟨a, rfl, ha⟩
  · exact Or.inr rfl
  · exact Or.inl (by simpa [abs, isPos] using abs_pos.mpr (ne_of_gt ha))

lemma good_abs_of_neg {x : JSNum} (h : x.lt (num 0) = true) : good x.abs := by
  rcases lt_num_true h with rfl | ⟨a, rfl, ha⟩
  · exact Or.inr rfl
  · exact Or.inl (by simpa [abs, isPos] using abs_pos.mpr (ne_of_lt ha))

end JSNum

/-! ### Lemmas about folds and tallies -/

open JSNum (good num)

lemma foldl_add_map_pos {α : Type} (g : α → JSNum) :
    ∀ (l : List α) (acc : JSNum), (∀ x ∈ l, (g x).isPos) → acc.isPos →
      (l.foldl (fun s x => s.add (g x)) acc).isPos := by
  intro l
  induction l with
  | nil => intro acc _ hacc; exact hacc
  | cons y ys ih =>
    intro acc h hacc
    refine ih _ (fun x hx => h x (List.mem_cons_of_mem _ hx)) ?_
    have hy := h y (List.mem_cons_self _ _)
    cases acc with
    | num p =>
      cases hgy : g y with
      | num q =>
        have hq : 0 < q := by rw [hgy] at hy; exact hy
        show ((num p).add (g y)).isPos
        rw [hgy]
        exact add_pos hacc hq
      | nan => rw [hgy] at hy; exact absurd hy id
      | inf => rw [hgy] at hy; exact absurd hy id
      | ninf => rw [hgy] at hy; exact absurd hy id
    | nan => exact absurd hacc id
    | inf => exact absurd hacc id
    | ninf => exact absurd hacc id

lemma foldl_add_map_pos0 {α : Type} (g : α → JSNum) (l : List α)
    (h : ∀ x ∈ l, (g x).isPos) (hne : l ≠ []) :
    (l.foldl (fun s x => s.add (g x)) (num 0)).isPos := by
  cases l with
  | nil => exact absurd rfl hne
  | cons y ys =>
    have hy := h y (List.mem_cons_self _ _)
    have hstep : ((num 0).add (g y)).isPos := by
      cases hgy : g y with
      | num q => rw [hgy] at hy; simpa [JSNum.add, JSNum.isPos] using hy
      | nan => rw [hgy] at hy; exact absurd hy id
      | inf => rw [hgy] at hy; exact absurd hy id
      | ninf => rw [hgy] at hy; exact absurd hy id
    exact foldl_add_map_pos g ys _ (fun x hx => h x (List.mem_cons_of_mem _ hx)) hstep

lemma jsum_pos {l : List JSNum} (h : ∀ x ∈ l, x.isPos) (hne : l ≠ []) :
    (jsum l).isPos :=
  foldl_add_map_pos0 id l h hne

lemma foldl_add_map_nonneg {α : Type} (g : α → JSNum) :
    ∀ (l : List α) (acc : JSNum), (∀ x ∈ l, (g x).isNonneg) → acc.isNonneg →
      (l.foldl (fun s x => s.add (g x)) acc).isNonneg := by
  intro l
  induction l with
  | nil => intro acc _ hacc; exact hacc
  | cons y ys ih =>
    intro acc h hacc
    refine ih _ (fun x hx => h x (List.mem_cons_of_mem _ hx)) ?_
    have hy := h y (List.mem_cons_self _ _)
    cases acc with
    | num p =>
      cases hgy : g y with
      | num q =>
        have hq : 0 ≤ q := by rw [hgy] at hy; exact hy
        show ((num p).add (g y)).isNonneg
        rw [hgy]
        exact add_nonneg hacc hq
      | nan => rw [hgy] at hy; exact absurd hy id
      | inf => rw [hgy] at hy; exact absurd hy id
      | ninf => rw [hgy] at hy; exact absurd hy id
    | nan => exact absurd hacc id
    | inf => exact absurd hacc id
    | ninf => exact absurd hacc id

/-- Invariant of the vote fold: either some condition has fired and the
accumulated confidence is `good`, or nothing fired yet and the counters are
still equal with zero accumulated confidence. -/
lemma foldl_tally_invariant :
    ∀ (l : List (Bool × Vote × JSNum)), (∀ e ∈ l, e.1 = true → good e.2.2) →
      ∀ st : ℕ × ℕ × JSNum, (good st.2.2 ∨ (st.1 = st.2.1 ∧ st.2.2 = num 0)) →
        good (l.foldl tallyStep st).2.2 ∨
          ((l.foldl tallyStep st).1 = (l.foldl tallyStep st).2.1 ∧
            (l.foldl tallyStep st).2.2 = num 0) := by
  intro l
  induction l with
  | nil => intro _ st hst; exact hst
  | cons e es ih =>
    intro h st hst
    refine ih (fun x hx => h x (List.mem_cons_of_mem _ hx)) _ ?_
    rcases st with ⟨b, s, t⟩
    rcases e with ⟨c, v, x⟩
    cases c with
    | false => simpa [tallyStep] using hst
    | true =>
      have hx : good x := h _ (List.mem_cons_self _ _) rfl
      have ht : good (t.add x) := by
        rcases hst with hst | hst
        · exact JSNum.good_add hst hx
        · have ht0 : t = num 0 := hst.2
          rw [ht0]
          exact JSNum.good_add_zero_left hx
      cases v with
      | buy => exact Or.inl (by simpa [tallyStep] using ht)
      | sell => exact Or.inl (by simpa [tallyStep] using ht)

/-- If the two vote counters of a tally differ, some condition fired, so the
accumulated confidence is `good`. -/
lemma tally_good {l : List (Bool × Vote × JSNum)}
    (h : ∀ e ∈ l, e.1 = true → good e.2.2) (hne : (tally l).1 ≠ (tally l).2.1) :
    good (tally l).2.2 := by
  rcases foldl_tally_invariant l h (0, 0, num 0) (Or.inr ⟨rfl, rfl⟩) with hg | hg
  · exact hg
  · exact absurd hg.1 hne

/-! ### The HOLD-confidence invariant -/

lemma confOK.hold_iff {s : TradeSignal} (h : confOK s) :
    s.action = Action.HOLD ↔ s.confidence = num 0 := by
  constructor
  · exact h.1
  · intro hc
    by_contra ha
    exact (h.2 ha).ne_zero hc

/-- The shared `action === 'HOLD' ? 0 : confidence` field satisfies the
invariant as soon as the raw confidence is positive off HOLD. -/
lemma confOK_mk (symbol : String) (action : Action) (confidence price : JSNum)
    (duration reason : String) (stopLoss takeProfit leverage : JSNum)
    (h : action ≠ Action.HOLD → confidence.isPos) :
    confOK { symbol := symbol, action := action,
             confidence := if action = Action.HOLD then num 0 else confidence,
             price := price, duration := duration, reason := reason,
             stopLoss := stopLoss, takeProfit := takeProfit, leverage := leverage } := by
  constructor
  · intro ha
    show (if action = Action.HOLD then num 0 else confidence) = num 0
    rw [if_pos ha]
  · intro ha
    show (if action = Action.HOLD then num 0 else confidence).isPos
    rw [if_neg ha]
    exact h ha

/-- The two-branch `(action, confidence)` selector used by the fixed- or
computed-confidence strategies: off HOLD the selected confidence is the
(positive) branch value. -/
lemma acPos2 (c1 c2 : Bool) (k1 k2 : JSNum)
    (h1 : c1 = true → k1.isPos) (h2 : c2 = true → k2.isPos)
    (h : (if c1 then ((Action.BUY : Action), k1) else if c2 then (Action.SELL, k2)
      else (Action.HOLD, num 0)).1 ≠ Action.HOLD) :
    (if c1 then ((Action.BUY : Action), k1) else if c2 then (Action.SELL, k2)
      else (Action.HOLD, num 0)).2.isPos := by
  cases c1 <;> cases c2 <;> simp_all

/-- The nested selector of `bollingerSqueeze`. -/
lemma acPosNested (c1 c2 : Bool) (k : JSNum) (hk : k.isPos)
    (h : (if c1 then (if c2 then ((Action.BUY : Action), k) else (Action.SELL, k))
      else (Action.HOLD, num 0)).1 ≠ Action.HOLD) :
    (if c1 then (if c2 then ((Action.BUY : Action), k) else (Action.SELL, k))
      else (Action.HOLD, num 0)).2.isPos := by
  cases c1 <;> cases c2 <;> simp_all

/-- The three-way threshold classifier `(< lo → BUY, > hi → SELL)` shared by
`calculateRSI` and `calculateStochastic`: a fired classification carries a
`good` strength. -/
lemma classifier_good (x : JSNum) (lo hi d : ℚ) (hd : 0 < d)
    (h : (if x.lt (num lo) then ((Action.BUY : Action), ((num lo).sub x).div (num d))
          else if (num hi).lt x then (Action.SELL, (x.sub (num hi)).div (num d))
          else (Action.HOLD, num 0)).1 ≠ Action.HOLD) :
    good (if x.lt (num lo) then ((Action.BUY : Action), ((num lo).sub x).div (num d))
          else if (num hi).lt x then (Action.SELL, (x.sub (num hi)).div (num d))
          else (Action.HOLD, num 0)).2 := by
  split_ifs at h ⊢ with h1 h2
  · exact JSNum.good_strength_below h1 hd
  · exact JSNum.good_strength_above h2 hd
  · exact absurd rfl h

lemma calculateRSI_strength_good (prices : List JSNum) (period : ℕ)
    (h : (TechnicalIndicators.calculateRSI prices period).signal ≠ Action.HOLD) :
    good (TechnicalIndicators.calculateRSI prices period).strength := by
  by_cases hg : prices.length < period + 1
  · rw [TechnicalIndicators.calculateRSI, if_pos hg] at h
    exact absurd rfl h
  · rw [TechnicalIndicators.calculateRSI, if_neg hg] at h ⊢
    exact classifier_good _ 30 70 30 (by norm_num) h

lemma calculateStochastic_strength_good (prices high low : List JSNum) (period : ℕ)
    (h : (TechnicalIndicators.calculateStochastic prices high low period).signal
      ≠ Action.HOLD) :
    good (TechnicalIndicators.calculateStochastic prices high low period).strength := by
  by_cases hg : prices.length < period
  · rw [TechnicalIndicators.calculateStochastic, if_pos hg] at h
    exact absurd rfl h
  · rw [TechnicalIndicators.calculateStochastic, if_neg hg] at h ⊢
    exact classifier_good _ 20 80 20 (by norm_num) h

namespace JSNum

lemma isPos_elim {x : JSNum} (h : x.isPos) : ∃ q, x = num q ∧ 0 < q := by
  cases x with
  | num q => exact ⟨q, rfl, h⟩
  | nan => exact absurd h id
  | inf => exact absurd h id
  | ninf => exact absurd h id

lemma isNonneg_elim {x : JSNum} (h : x.isNonneg) : ∃ q, x = num q ∧ 0 ≤ q := by
  cases x with
  | num q => exact ⟨q, rfl, h⟩
  | nan => exact absurd h id
  | inf => exact absurd h id
  | ninf => exact absurd h id

lemma lt_left_ne_nan {x y : JSNum} (h : x.lt y = true) : x ≠ nan := by
  intro hx; rw [hx] at h; simp [lt] at h

lemma lt_right_ne_nan {x y : JSNum} (h : x.lt y = true) : y ≠ nan := by
  intro hy; rw [hy] at h; cases x <;> simp [lt] at h

/-- A value strictly above a nonnegative threshold is `good`. -/
lemma good_of_num_lt {x : JSNum} {c : ℚ} (h : (num c).lt x = true) (hc : 0 ≤ c) :
    good x := by
  rcases num_lt_true h with rfl | ⟨a, rfl, ha⟩
  · exact Or.inr rfl
  · exact Or.inl (lt_of_le_of_lt hc ha)

end JSNum

/-- The last element of a list of positive finite numbers is `NaN` (empty
list) or a positive finite number. -/
lemma jsLast_pos {prices : List JSNum} (hp : ∀ x ∈ prices, x.isPos) :
    jsLast prices = JSNum.nan ∨ ∃ q, jsLast prices = num q ∧ 0 < q := by
  cases prices with
  | nil => exact Or.inl rfl
  | cons y ys =>
    right
    have hidx : (((y :: ys).length : ℤ) - 1).toNat < (y :: ys).length := by
      simp [List.length_cons]
    have hmem : jsLast (y :: ys) ∈ y :: ys := by
      rw [jsLast, jsIdx, if_pos (by simp only [List.length_cons]; omega)]
      rw [List.getD_eq_getElem?_getD, List.getElem?_eq_getElem hidx]
      exact List.getElem_mem _
    exact JSNum.isPos_elim (hp _ hmem)

/-- On enough positive data, the SMA is a positive finite number. -/
lemma calculateSMA_pos (prices : List JSNum) (period : ℕ)
    (hp : ∀ x ∈ prices, x.isPos) (hper : 0 < period) (hlen : period ≤ prices.length) :
    ∃ s, TechnicalIndicators.calculateSMA prices period = num s ∧ 0 < s := by
  have hslice : ∀ x ∈ sliceLast prices period, x.isPos := fun x hx =>
    hp x (List.mem_of_mem_drop hx)
  have hlenslice : (sliceLast prices period).length = period := by
    simp only [sliceLast, List.length_drop]
    omega
  have hne : sliceLast prices period ≠ [] := by
    intro h
    rw [h] at hlenslice
    simp at hlenslice
    omega
  rcases JSNum.isPos_elim (jsum_pos hslice hne) with ⟨t, ht, htpos⟩
  have h0 : ((period : ℚ)) ≠ 0 := Nat.cast_ne_zero.mpr hper.ne'
  refine ⟨t / period, ?_, div_pos htpos (by exact_mod_cast hper)⟩
  rw [TechnicalIndicators.calculateSMA, if_neg (by omega), ht]
  simp [JSNum.div, h0]

/-- On positive data, the Bollinger bands are either the insufficient-data
zeros or `middle ± 2·sq(variance)` with a positive middle and a nonnegative
band width (given a nonnegative square-root function). -/
lemma bb_shape (sq : ℚ → ℚ) (hsq : ∀ x, 0 ≤ sq x) (prices : List JSNum)
    (hp : ∀ x ∈ prices, x.isPos) :
    TechnicalIndicators.calculateBollingerBands sq prices 20
        = ⟨num 0, num 0, num 0⟩ ∨
      ∃ s w, 0 < s ∧ 0 ≤ w ∧
        TechnicalIndicators.calculateBollingerBands sq prices 20
          = ⟨num (s + 2 * w), num s, num (s - 2 * w)⟩ := by
  by_cases hlen : prices.length < 20
  · left
    rw [TechnicalIndicators.calculateBollingerBands, if_pos hlen]
  · right
    obtain ⟨s, hs, hspos⟩ := calculateSMA_pos prices 20 hp (by norm_num) (by omega)
    have hterm : ∀ p ∈ sliceLast prices 20,
        ((p.sub (num s)).mul (p.sub (num s))).isNonneg := by
      intro p hpmem
      rcases JSNum.isPos_elim (hp p (List.mem_of_mem_drop hpmem)) with ⟨a, rfl, hap⟩
      show ((num (a - s)).mul (num (a - s))).isNonneg
      exact mul_self_nonneg _
    have hfold := foldl_add_map_nonneg (fun p => (p.sub (num s)).mul (p.sub (num s)))
      (sliceLast prices 20) (num 0) hterm (le_refl (0 : ℚ))
    rcases JSNum.isNonneg_elim hfold with ⟨u, hu, hunn⟩
    refine ⟨s, sq (u / 20), hspos, hsq _, ?_⟩
    rw [TechnicalIndicators.calculateBollingerBands, if_neg hlen]
    dsimp only
    rw [hs]
    rw [show ((sliceLast prices 20).foldl
        (fun acc p => acc.add ((p.sub (num s)).mul (p.sub (num s)))) (num 0)) = num u from hu]
    simp only [Nat.cast_ofNat]
    have h20 : ((20 : ℚ)) ≠ 0 := by norm_num
    have hdiv : (num u).div (num 20) = num (u / 20) := by simp [JSNum.div, h20]
    rw [hdiv]
    have hnn : ¬(u / 20 < 0) := not_lt.mpr (div_nonneg hunn (by norm_num))
    rw [show jsqrt sq (num (u / 20)) = num (sq (u / 20)) from by simp [jsqrt, hnn]]
    simp [JSNum.add, JSNum.sub, JSNum.mul]

namespace TradingStrategies

lemma and_true_parts {a b : Bool} (h : (a && b) = true) : a = true ∧ b = true := by
  simp only [Bool.and_eq_true] at h
  exact h

lemma guardSignal_confOK (prices : List JSNum) (symbol reason : String) :
    confOK (guardSignal prices symbol reason) :=
  ⟨fun _ => rfl, fun h => absurd rfl h⟩

lemma createHoldSignal_confOK (prices : List JSNum) (symbol reason : String) :
    confOK (createHoldSignal prices symbol reason) :=
  ⟨fun _ => rfl, fun h => absurd rfl h⟩

lemma supertrendStrategy_confOK (prices high low : List JSNum) (symbol : String) :
    confOK (supertrendStrategy prices high low symbol) := by
  unfold supertrendStrategy
  split
  · exact guardSignal_confOK _ _ _
  · exact confOK_mk _ _ _ _ _ _ _ _ _
      (acPos2 _ _ _ _ (fun _ => by norm_num [JSNum.isPos])
        (fun _ => by norm_num [JSNum.isPos]))

lemma ichimokuCloud_confOK (prices : List JSNum) (symbol : String) :
    confOK (ichimokuCloud prices symbol) := by
  unfold ichimokuCloud
  split
  · exact guardSignal_confOK _ _ _
  · exact confOK_mk _ _ _ _ _ _ _ _ _
      (acPos2 _ _ _ _ (fun _ => by norm_num [JSNum.isPos])
        (fun _ => by norm_num [JSNum.isPos]))

lemma parabolicSAR_confOK (prices high low : List JSNum) (symbol : String) :
    confOK (parabolicSAR prices high low symbol) := by
  unfold parabolicSAR
  split
  · exact guardSignal_confOK _ _ _
  · exact confOK_mk _ _ _ _ _ _ _ _ _
      (acPos2 _ _ _ _ (fun _ => by norm_num [JSNum.isPos])
        (fun _ => by norm_num [JSNum.isPos]))

lemma vwapStrategy_confOK (prices volumes high low : List JSNum) (symbol : String) :
    confOK (vwapStrategy prices volumes high low symbol) := by
  unfold vwapStrategy
  split
  · exact guardSignal_confOK _ _ _
  · exact confOK_mk _ _ _ _ _ _ _ _ _
      (acPos2 _ _ _ _ (fun _ => by norm_num [JSNum.isPos])
        (fun _ => by norm_num [JSNum.isPos]))

lemma rsiDivergence_confOK (prices high low : List JSNum) (symbol : String) :
    confOK (rsiDivergence prices high low symbol) := by
  unfold rsiDivergence
  exact confOK_mk _ _ _ _ _ _ _ _ _
    (acPos2 _ _ _ _ (fun _ => by norm_num [JSNum.isPos])
      (fun _ => by norm_num [JSNum.isPos]))

lemma stochasticOscillator_confOK (prices high low : List JSNum) (symbol : String) :
    confOK (stochasticOscillator prices high low symbol) := by
  unfold stochasticOscillator
  exact confOK_mk _ _ _ _ _ _ _ _ _
    (acPos2 _ _ _ _ (fun _ => by norm_num [JSNum.isPos])
      (fun _ => by norm_num [JSNum.isPos]))

lemma williamsR_confOK (prices high low : List JSNum) (symbol : String) :
    confOK (williamsR prices high low symbol) := by
  unfold williamsR
  exact confOK_mk _ _ _ _ _ _ _ _ _
    (acPos2 _ _ _ _ (fun _ => by norm_num [JSNum.isPos])
      (fun _ => by norm_num [JSNum.isPos]))

lemma cciStrategy_confOK (prices high low : List JSNum) (symbol : String) :
    confOK (cciStrategy prices high low symbol) := by
  unfold cciStrategy
  exact confOK_mk _ _ _ _ _ _ _ _ _
    (acPos2 _ _ _ _ (fun _ => by norm_num [JSNum.isPos])
      (fun _ => by norm_num [JSNum.isPos]))

lemma atrBreakout_confOK (prices high low : List JSNum) (symbol : String) :
    confOK (atrBreakout prices high low symbol) := by
  unfold atrBreakout
  exact confOK_mk _ _ _ _ _ _ _ _ _
    (acPos2 _ _ _ _ (fun _ => by norm_num [JSNum.isPos])
      (fun _ => by norm_num [JSNum.isPos]))

lemma fibonacciRetracement_confOK (prices high low : List JSNum) (symbol : String) :
    confOK (fibonacciRetracement prices high low symbol) := by
  unfold fibonacciRetracement
  exact confOK_mk _ _ _ _ _ _ _ _ _
    (acPos2 _ _ _ _ (fun _ => by norm_num [JSNum.isPos])
      (fun _ => by norm_num [JSNum.isPos]))

lemma pivotPoints_confOK (prices high low : List JSNum) (symbol : String) :
    confOK (pivotPoints prices high low symbol) := by
  unfold pivotPoints
  exact confOK_mk _ _ _ _ _ _ _ _ _
    (acPos2 _ _ _ _ (fun _ => by norm_num [JSNum.isPos])
      (fun _ => by norm_num [JSNum.isPos]))

lemma movingAverageCross_confOK (prices : List JSNum) (symbol : String) :
    confOK (movingAverageCross prices symbol) := by
  unfold movingAverageCross
  exact confOK_mk _ _ _ _ _ _ _ _ _
    (acPos2 _ _ _ _ (fun _ => by norm_num [JSNum.isPos])
      (fun _ => by norm_num [JSNum.isPos]))

lemma emaRibbon_confOK (prices : List JSNum) (symbol : String) :
    confOK (emaRibbon prices symbol) := by
  unfold emaRibbon
  exact confOK_mk _ _ _ _ _ _ _ _ _
    (acPos2 _ _ _ _ (fun _ => by norm_num [JSNum.isPos])
      (fun _ => by norm_num [JSNum.isPos]))

lemma priceAction_confOK (prices high low : List JSNum) (symbol : String) :
    confOK (priceAction prices high low symbol) := by
  unfold priceAction
  exact confOK_mk _ _ _ _ _ _ _ _ _
    (acPos2 _ _ _ _ (fun _ => by norm_num [JSNum.isPos])
      (fun _ => by norm_num [JSNum.isPos]))

lemma supportResistance_confOK (prices high low : List JSNum) (symbol : String) :
    confOK (supportResistance prices high low symbol) := by
  unfold supportResistance
  exact confOK_mk _ _ _ _ _ _ _ _ _
    (acPos2 _ _ _ _ (fun _ => by norm_num [JSNum.isPos])
      (fun _ => by norm_num [JSNum.isPos]))

lemma volumeProfile_confOK (prices volumes : List JSNum) (symbol : String) :
    confOK (volumeProfile prices volumes symbol) := by
  unfold volumeProfile
  exact confOK_mk _ _ _ _ _ _ _ _ _
    (acPos2 _ _ _ _ (fun _ => by norm_num [JSNum.isPos])
      (fun _ => by norm_num [JSNum.isPos]))

lemma orderFlow_confOK (prices volumes : List JSNum) (symbol : String) :
    confOK (orderFlow prices volumes symbol) := by
  unfold orderFlow
  exact confOK_mk _ _ _ _ _ _ _ _ _
    (acPos2 _ _ _ _ (fun _ => by norm_num [JSNum.isPos])
      (fun _ => by norm_num [JSNum.isPos]))

lemma marketStructure_confOK (prices high low : List JSNum) (symbol : String) :
    confOK (marketStructure prices high low symbol) := by
  unfold marketStructure
  exact confOK_mk _ _ _ _ _ _ _ _ _
    (acPos2 _ _ _ _ (fun _ => by norm_num [JSNum.isPos])
      (fun _ => by norm_num [JSNum.isPos]))

lemma bollingerSqueeze_confOK (sq : ℚ → ℚ) (prices high low : List JSNum) (symbol : String) :
    confOK (bollingerSqueeze sq prices high low symbol) := by
  unfold bollingerSqueeze
  exact confOK_mk _ _ _ _ _ _ _ _ _
    (acPosNested _ _ _ (by norm_num [JSNum.isPos]))

lemma macdHistogram_confOK (prices : List JSNum) (symbol : String) :
    confOK (macdHistogram prices symbol) := by
  unfold macdHistogram
  refine confOK_mk _ _ _ _ _ _ _ _ _ (acPos2 _ _ _ _ ?_ ?_)
  · intro hc
    exact JSNum.isPos_min2_const
      (JSNum.good_mul_const (JSNum.good_abs_of_pos (and_true_parts hc).1) (by norm_num))
      (by norm_num)
  · intro hc
    exact JSNum.isPos_min2_const
      (JSNum.good_mul_const (JSNum.good_abs_of_neg (and_true_parts hc).1) (by norm_num))
      (by norm_num)

lemma volumeWeightedMACD_confOK (prices volumes : List JSNum) (symbol : String) :
    confOK (volumeWeightedMACD prices volumes symbol) := by
  unfold volumeWeightedMACD
  split
  · exact guardSignal_confOK _ _ _
  · refine confOK_mk _ _ _ _ _ _ _ _ _ (acPos2 _ _ _ _ ?_ ?_)
    · intro hc
      exact JSNum.isPos_min2_const
        (JSNum.good_mul_const (JSNum.good_abs_of_pos (and_true_parts hc).2) (by norm_num))
        (by norm_num)
    · intro hc
      exact JSNum.isPos_min2_const
        (JSNum.good_mul_const (JSNum.good_abs_of_neg (and_true_parts hc).2) (by norm_num))
        (by norm_num)

lemma adxMomentum_confOK (prices high low : List JSNum) (symbol : String) :
    confOK (adxMomentum prices high low symbol) := by
  unfold adxMomentum
  split
  · exact guardSignal_confOK _ _ _
  · refine confOK_mk _ _ _ _ _ _ _ _ _ (acPos2 _ _ _ _ ?_ ?_)
    · intro hc
      exact JSNum.isPos_min2_const
        (JSNum.good_mul_const (JSNum.good_of_num_lt (and_true_parts hc).2 (by norm_num))
          (by norm_num))
        (by norm_num)
    · intro hc
      exact JSNum.isPos_min2_const
        (JSNum.good_mul_const (JSNum.good_of_num_lt (and_true_parts hc).2 (by norm_num))
          (by norm_num))
        (by norm_num)

lemma ne_hold_of_beq_buy {a : Action} (h : (a == Action.BUY) = true) :
    a ≠ Action.HOLD := by
  rw [beq_iff_eq] at h
  subst h
  intro hh
  cases hh

lemma ne_hold_of_beq_sell {a : Action} (h : (a == Action.SELL) = true) :
    a ≠ Action.HOLD := by
  rw [beq_iff_eq] at h
  subst h
  intro hh
  cases hh

/-- The final action selector of the voting strategies is non-HOLD only when
the two counters differ. -/
lemma vote_action_ne {b s : ℕ}
    (h : (if s < b then Action.BUY else if b < s then Action.SELL else Action.HOLD)
      ≠ Action.HOLD) :
    b ≠ s := by
  split_ifs at h with h1 h2
  · omega
  · omega
  · exact absurd rfl h

lemma multiTimeframeRSI_confOK (prices high low : List JSNum) (symbol : String) :
    confOK (multiTimeframeRSI prices high low symbol) := by
  unfold multiTimeframeRSI
  refine confOK_mk _ _ _ _ _ _ _ _ _ ?_
  intro ha
  refine JSNum.isPos_min2_const
    (JSNum.good_div_const (tally_good ?_ (vote_action_ne ha)) (by norm_num)) (by norm_num)
  intro e he
  simp only [List.mem_cons, List.not_mem_nil, or_false] at he
  rcases he with rfl | rfl | rfl | rfl | rfl | rfl | rfl | rfl
  · exact fun hc => calculateRSI_strength_good _ _ (ne_hold_of_beq_buy hc)
  · exact fun hc => calculateRSI_strength_good _ _ (ne_hold_of_beq_sell hc)
  · exact fun hc => calculateRSI_strength_good _ _ (ne_hold_of_beq_buy hc)
  · exact fun hc => calculateRSI_strength_good _ _ (ne_hold_of_beq_sell hc)
  · exact fun hc => calculateRSI_strength_good _ _ (ne_hold_of_beq_buy hc)
  · exact fun hc => calculateRSI_strength_good _ _ (ne_hold_of_beq_sell hc)
  · exact fun _ => JSNum.good_num (by norm_num)
  · exact fun _ => JSNum.good_num (by norm_num)

lemma trendFollowingMACD_confOK (prices : List JSNum) (symbol : String) :
    confOK (trendFollowingMACD prices symbol) := by
  unfold trendFollowingMACD
  refine confOK_mk _ _ _ _ _ _ _ _ _ ?_
  intro ha
  refine JSNum.isPos_min2_const
    (JSNum.good_div_const (tally_good ?_ (vote_action_ne ha)) (by norm_num)) (by norm_num)
  intro e he
  simp only [List.mem_cons, List.not_mem_nil, or_false] at he
  rcases he with rfl | rfl | rfl | rfl | rfl | rfl
  · intro hc
    exact Or.inl (JSNum.isPos_min2_const
      (JSNum.good_mul_const (JSNum.good_abs_of_pos (and_true_parts hc).2) (by norm_num))
      (by norm_num))
  · intro hc
    exact Or.inl (JSNum.isPos_min2_const
      (JSNum.good_mul_const (JSNum.good_abs_of_neg (and_true_parts hc).2) (by norm_num))
      (by norm_num))
  · exact fun _ => JSNum.good_num (by norm_num)
  · exact fun _ => JSNum.good_num (by norm_num)
  · exact fun _ => JSNum.good_num (by norm_num)
  · exact fun _ => JSNum.good_num (by norm_num)

lemma meanReversionBB_confOK (sq : ℚ → ℚ) (hsq : ∀ x, 0 ≤ sq x)
    (prices high low : List JSNum) (hp : ∀ x ∈ prices, x.isPos) (symbol : String) :
    confOK (meanReversionBB sq prices high low symbol) := by
  unfold meanReversionBB
  refine confOK_mk _ _ _ _ _ _ _ _ _ ?_
  intro ha
  refine JSNum.isPos_min2_const
    (JSNum.good_div_const (tally_good ?_ (vote_action_ne ha)) (by norm_num)) (by norm_num)
  intro e he
  simp only [List.mem_cons, List.not_mem_nil, or_false] at he
  rcases he with rfl | rfl | rfl | rfl | rfl | rfl
  · -- current price strictly below the lower band
    intro hc
    rcases jsLast_pos hp with hnan | ⟨q, hq, hqpos⟩
    · rw [hnan] at hc
      simp [JSNum.lt] at hc
    rw [hq] at hc ⊢
    rcases bb_shape sq hsq prices hp with hbb | ⟨s, w, hspos, hwnn, hbb⟩
    · rw [hbb] at hc
      have : q < 0 := by simpa [JSNum.lt] using hc
      linarith
    · rw [hbb] at hc ⊢
      have hql : q < s - 2 * w := by simpa [JSNum.lt] using hc
      have hl0 : (0 : ℚ) < s - 2 * w := lt_trans hqpos hql
      refine Or.inl (JSNum.isPos_min2_const (Or.inl ?_) (by norm_num))
      show ((((num (s - 2 * w)).sub (num q)).div (num (s - 2 * w))).mul (num 1000)).isPos
      simp only [JSNum.sub, JSNum.div, if_neg hl0.ne', JSNum.mul]
      exact mul_pos (div_pos (by linarith) hl0) (by norm_num)
  · -- current price strictly above the upper band
    intro hc
    rcases jsLast_pos hp with hnan | ⟨q, hq, hqpos⟩
    · rw [hnan] at hc
      exact absurd rfl (JSNum.lt_right_ne_nan hc)
    rw [hq] at hc ⊢
    rcases bb_shape sq hsq prices hp with hbb | ⟨s, w, hspos, hwnn, hbb⟩
    · rw [hbb] at hc ⊢
      refine Or.inl (JSNum.isPos_min2_const (Or.inr ?_) (by norm_num))
      show ((((num q).sub (num 0)).div (num 0)).mul (num 1000)) = JSNum.inf
      rw [show (num q).sub (num 0) = num q from by simp [JSNum.sub]]
      rw [show (num q).div (num 0) = JSNum.inf from by simp [JSNum.div, hqpos.ne', hqpos]]
      simp [JSNum.mul]
    · rw [hbb] at hc ⊢
      have hqu : s + 2 * w < q := by simpa [JSNum.lt] using hc
      have hu0 : (0 : ℚ) < s + 2 * w := by linarith
      refine Or.inl (JSNum.isPos_min2_const (Or.inl ?_) (by norm_num))
      show ((((num q).sub (num (s + 2 * w))).div (num (s + 2 * w))).mul (num 1000)).isPos
      simp only [JSNum.sub, JSNum.div, if_neg hu0.ne', JSNum.mul]
      exact mul_pos (div_pos (by linarith) hu0) (by norm_num)
  · exact fun hc => calculateRSI_strength_good _ _ (ne_hold_of_beq_buy hc)
  · exact fun hc => calculateRSI_strength_good _ _ (ne_hold_of_beq_sell hc)
  · exact fun hc => calculateStochastic_strength_good _ _ _ _ (ne_hold_of_beq_buy hc)
  · exact fun hc => calculateStochastic_strength_good _ _ _ _ (ne_hold_of_beq_sell hc)

/-- Every one of the 58 catalog signals satisfies the HOLD-confidence
invariant (for positive input prices and a nonnegative square root). -/
lemma allSignals_confOK (sq : ℚ → ℚ) (hsq : ∀ x, 0 ≤ sq x)
    (prices high low : List JSNum) (hp : ∀ x ∈ prices, x.isPos) (symbol : String) :
    ∀ s ∈ getAllSignals sq prices high low symbol, confOK s := by
  intro s hs
  simp only [getAllSignals, List.mem_cons, List.not_mem_nil, or_false] at hs
  rcases hs with rfl|rfl|rfl|rfl|rfl|rfl|rfl|rfl|rfl|rfl|rfl|rfl|rfl|rfl|rfl|rfl|rfl|rfl|rfl|
    rfl|rfl|rfl|rfl|rfl|rfl|rfl|rfl|rfl|rfl|rfl|rfl|rfl|rfl|rfl|rfl|rfl|rfl|rfl|rfl|rfl|rfl|
    rfl|rfl|rfl|rfl|rfl|rfl|rfl|rfl|rfl|rfl|rfl|rfl|rfl|rfl|rfl|rfl|rfl
  · exact multiTimeframeRSI_confOK _ _ _ _
  · exact trendFollowingMACD_confOK _ _
  · exact meanReversionBB_confOK sq hsq _ _ _ hp _
  · exact volumeWeightedMACD_confOK _ _ _
  · exact ichimokuCloud_confOK _ _
  · exact supertrendStrategy_confOK _ _ _ _
  · exact parabolicSAR_confOK _ _ _ _
  · exact adxMomentum_confOK _ _ _ _
  · exact rsiDivergence_confOK _ _ _ _
  · exact macdHistogram_confOK _ _
  · exact bollingerSqueeze_confOK sq _ _ _ _
  · exact stochasticOscillator_confOK _ _ _ _
  · exact williamsR_confOK _ _ _ _
  · exact cciStrategy_confOK _ _ _ _
  · exact atrBreakout_confOK _ _ _ _
  · exact vwapStrategy_confOK _ _ _ _ _
  · exact fibonacciRetracement_confOK _ _ _ _
  · exact pivotPoints_confOK _ _ _ _
  · exact movingAverageCross_confOK _ _
  · exact emaRibbon_confOK _ _
  · exact priceAction_confOK _ _ _ _
  · exact supportResistance_confOK _ _ _ _
  · exact volumeProfile_confOK _ _ _
  · exact orderFlow_confOK _ _ _
  · exact marketStructure_confOK _ _ _ _
  · exact createHoldSignal_confOK _ _ _
  · exact createHoldSignal_confOK _ _ _
  · exact createHoldSignal_confOK _ _ _
  · exact createHoldSignal_confOK _ _ _
  · exact createHoldSignal_confOK _ _ _
  · exact createHoldSignal_confOK _ _ _
  · exact createHoldSignal_confOK _ _ _
  · exact createHoldSignal_confOK _ _ _
  · exact createHoldSignal_confOK _ _ _
  · exact createHoldSignal_confOK _ _ _
  · exact createHoldSignal_confOK _ _ _
  · exact createHoldSignal_confOK _ _ _
  · exact createHoldSignal_confOK _ _ _
  · exact createHoldSignal_confOK _ _ _
  · exact createHoldSignal_confOK _ _ _
  · exact createHoldSignal_confOK _ _ _
  · exact createHoldSignal_confOK _ _ _
  · exact createHoldSignal_confOK _ _ _
  · exact createHoldSignal_confOK _ _ _
  · exact createHoldSignal_confOK _ _ _
  · exact createHoldSignal_confOK _ _ _
  · exact createHoldSignal_confOK _ _ _
  · exact createHoldSignal_confOK _ _ _
  · exact createHoldSignal_confOK _ _ _
  · exact createHoldSignal_confOK _ _ _
  · exact createHoldSignal_confOK _ _ _
  · exact createHoldSignal_confOK _ _ _
  · exact createHoldSignal_confOK _ _ _
  · exact createHoldSignal_confOK _ _ _
  · exact createHoldSignal_confOK _ _ _
  · exact createHoldSignal_confOK _ _ _
  · exact createHoldSignal_confOK _ _ _
  · exact createHoldSignal_confOK _ _ _

/-- The consensus confidence `avg * (winning / total)` over a nonempty list
of non-HOLD signals with positive confidences is positive. -/
lemma consensus_conf_pos (valid : List TradeSignal) (hne : valid ≠ [])
    (hposc : ∀ v ∈ valid, v.confidence.isPos)
    (hvholds : ∀ v ∈ valid, v.action ≠ Action.HOLD) :
    (((valid.foldl (fun s v => s.add v.confidence) (num 0)).div
        (num (valid.length : ℚ))).mul
      ((num ((max (valid.filter (fun s => s.action == Action.BUY)).length
          (valid.filter (fun s => s.action == Action.SELL)).length : ℕ) : ℚ)).div
        (num (valid.length : ℚ)))).isPos := by
  rcases JSNum.isPos_elim (foldl_add_map_pos0 (fun v : TradeSignal => v.confidence)
    valid hposc hne) with ⟨t, ht, htpos⟩
  have hn : (0 : ℚ) < ((valid.length : ℕ) : ℚ) := by
    exact_mod_cast List.length_pos.mpr hne
  have hcc : 0 < max (valid.filter (fun s => s.action == Action.BUY)).length
      (valid.filter (fun s => s.action == Action.SELL)).length := by
    rcases List.exists_mem_of_ne_nil _ hne with ⟨v, hv⟩
    have hvne2 := hvholds v hv
    cases hva : v.action with
    | BUY =>
      have hmem : v ∈ valid.filter (fun s => s.action == Action.BUY) :=
        List.mem_filter.mpr ⟨hv, by rw [hva]; rfl⟩
      have := List.length_pos.mpr (List.ne_nil_of_mem hmem)
      omega
    | SELL =>
      have hmem : v ∈ valid.filter (fun s => s.action == Action.SELL) :=
        List.mem_filter.mpr ⟨hv, by rw [hva]; rfl⟩
      have := List.length_pos.mpr (List.ne_nil_of_mem hmem)
      omega
    | HOLD => exact absurd hva hvne2
  have hccq : (0 : ℚ) < ((max (valid.filter (fun s => s.action == Action.BUY)).length
      (valid.filter (fun s => s.action == Action.SELL)).length : ℕ) : ℚ) := by
    exact_mod_cast hcc
  rw [ht]
  rw [show (num t).div (num ((valid.length : ℕ) : ℚ))
      = num (t / ((valid.length : ℕ) : ℚ)) from by simp [JSNum.div, hn.ne']]
  rw [show (num ((max (valid.filter (fun s => s.action == Action.BUY)).length
        (valid.filter (fun s => s.action == Action.SELL)).length : ℕ) : ℚ)).div
        (num ((valid.length : ℕ) : ℚ))
      = num (((max (valid.filter (fun s => s.action == Action.BUY)).length
        (valid.filter (fun s => s.action == Action.SELL)).length : ℕ) : ℚ) /
        ((valid.length : ℕ) : ℚ)) from by simp [JSNum.div, hn.ne']]
  exact mul_pos (div_pos htpos hn) (div_pos hccq hn)

set_option maxHeartbeats 1000000 in
/-- The consensus signal also satisfies the HOLD-confidence invariant. -/
lemma getConsensusSignal_confOK (sq : ℚ → ℚ) (hsq : ∀ x, 0 ≤ sq x)
    (prices high low : List JSNum) (hp : ∀ x ∈ prices, x.isPos) (symbol : String) :
    confOK (getConsensusSignal sq prices high low symbol) := by
  by_cases hvne : (validSignals sq prices high low symbol).length = 0
  · unfold getConsensusSignal
    dsimp only
    rw [if_pos hvne]
    exact ⟨fun _ => rfl, fun h => absurd rfl h⟩
  · have hne : validSignals sq prices high low symbol ≠ [] := by
      intro h
      exact hvne (by rw [h]; rfl)
    have hposc : ∀ v ∈ validSignals sq prices high low symbol, v.confidence.isPos := by
      intro v hv
      rw [validSignals, List.mem_filter] at hv
      refine (allSignals_confOK sq hsq prices high low hp symbol v hv.1).2 ?_
      simpa [bne_iff_ne] using hv.2
    have hvholds : ∀ v ∈ validSignals sq prices high low symbol, v.action ≠ Action.HOLD := by
      intro v hv
      rw [validSignals, List.mem_filter] at hv
      simpa [bne_iff_ne] using hv.2
    unfold getConsensusSignal
    dsimp only
    rw [if_neg hvne]
    constructor
    · intro haH
      exfalso
      dsimp only at haH
      split at haH <;> cases haH
    · intro _
      dsimp only
      exact consensus_conf_pos _ hne hposc hvholds

end TradingStrategies

/-! ### Claim theorems -/

/-- When at least one non-HOLD signal exists, `getConsensusSignal` takes its
else-branch: this equation spells out every field it returns. -/
lemma consensus_eq_of_nonempty (sq : ℚ → ℚ) (prices high low : List JSNum)
    (symbol : String)
    (hv : (TradingStrategies.validSignals sq prices high low symbol).length ≠ 0) :
    TradingStrategies.getConsensusSignal sq prices high low symbol =
      { symbol := symbol,
        action := if ((TradingStrategies.validSignals sq prices high low symbol).filter
              (fun s => s.action == Action.SELL)).length <
            ((TradingStrategies.validSignals sq prices high low symbol).filter
              (fun s => s.action == Action.BUY)).length
          then Action.BUY else Action.SELL,
        confidence := (((TradingStrategies.validSignals sq prices high low symbol).foldl
            (fun s v => s.add v.confidence) (num 0)).div
              (num ((TradingStrategies.validSignals sq prices high low symbol).length : ℚ))).mul
          ((num ((max ((TradingStrategies.validSignals sq prices high low symbol).filter
                (fun s => s.action == Action.BUY)).length
              ((TradingStrategies.validSignals sq prices high low symbol).filter
                (fun s => s.action == Action.SELL)).length : ℕ) : ℚ)).div
            (num ((TradingStrategies.validSignals sq prices high low symbol).length : ℚ))),
        price := jsLast prices,
        duration := "15m-4h",
        reason := "Consensus: "
          ++ toString (max ((TradingStrategies.validSignals sq prices high low symbol).filter
              (fun s => s.action == Action.BUY)).length
            ((TradingStrategies.validSignals sq prices high low symbol).filter
              (fun s => s.action == Action.SELL)).length)
          ++ "/" ++ toString (TradingStrategies.validSignals sq prices high low symbol).length
          ++ " strategies agree",
        stopLoss := if (if ((TradingStrategies.validSignals sq prices high low symbol).filter
              (fun s => s.action == Action.SELL)).length <
            ((TradingStrategies.validSignals sq prices high low symbol).filter
              (fun s => s.action == Action.BUY)).length
          then Action.BUY else Action.SELL) = Action.BUY
          then (jsLast prices).mul (num (98 / 100))
          else (jsLast prices).mul (num (102 / 100)),
        takeProfit := if (if ((TradingStrategies.validSignals sq prices high low symbol).filter
              (fun s => s.action == Action.SELL)).length <
            ((TradingStrategies.validSignals sq prices high low symbol).filter
              (fun s => s.action == Action.BUY)).length
          then Action.BUY else Action.SELL) = Action.BUY
          then (jsLast prices).mul (num (103 / 100))
          else (jsLast prices).mul (num (97 / 100)),
        leverage := num 3 } := by
  unfold TradingStrategies.getConsensusSignal
  dsimp only
  rw [if_neg hv]

/-- Claim C3: when at least one strategy signal is non-HOLD, the consensus
signal is exactly the record whose confidence is (mean of the non-HOLD
confidences) × (winning count / non-HOLD count) — the winning count being the
larger of the BUY and SELL tallies — whose reason is exactly
`"Consensus: <winningCount>/<nonHoldCount> strategies agree"`, whose
stop-loss and take-profit are the current price times 0.98 and 1.03 when the
action is BUY (times 1.02 and 0.97 otherwise), whose leverage is 3 and whose
duration is `"15m-4h"`. -/
theorem c3_consensus_signal_fields (sq : ℚ → ℚ) (prices high low : List JSNum)
    (symbol : String)
    (hv : (TradingStrategies.validSignals sq prices high low symbol).length ≠ 0) :
    TradingStrategies.getConsensusSignal sq prices high low symbol =
      { symbol := symbol,
        action := if ((TradingStrategies.validSignals sq prices high low symbol).filter
              (fun s => s.action == Action.SELL)).length <
            ((TradingStrategies.validSignals sq prices high low symbol).filter
              (fun s => s.action == Action.BUY)).length
          then Action.BUY else Action.SELL,
        confidence := (((TradingStrategies.validSignals sq prices high low symbol).foldl
            (fun s v => s.add v.confidence) (num 0)).div
              (num ((TradingStrategies.validSignals sq prices high low symbol).length : ℚ))).mul
          ((num ((max ((TradingStrategies.validSignals sq prices high low symbol).filter
                (fun s => s.action == Action.BUY)).length
              ((TradingStrategies.validSignals sq prices high low symbol).filter
                (fun s => s.action == Action.SELL)).length : ℕ) : ℚ)).div
            (num ((TradingStrategies.validSignals sq prices high low symbol).length : ℚ))),
        price := jsLast prices,
        duration := "15m-4h",
        reason := "Consensus: "
          ++ toString (max ((TradingStrategies.validSignals sq prices high low symbol).filter
              (fun s => s.action == Action.BUY)).length
            ((TradingStrategies.validSignals sq prices high low symbol).filter
              (fun s => s.action == Action.SELL)).length)
          ++ "/" ++ toString (TradingStrategies.validSignals sq prices high low symbol).length
          ++ " strategies agree",
        stopLoss := if (if ((TradingStrategies.validSignals sq prices high low symbol).filter
              (fun s => s.action == Action.SELL)).length <
            ((TradingStrategies.validSignals sq prices high low symbol).filter
              (fun s => s.action == Action.BUY)).length
          then Action.BUY else Action.SELL) = Action.BUY
          then (jsLast prices).mul (num (98 / 100))
          else (jsLast prices).mul (num (102 / 100)),
        takeProfit := if (if ((TradingStrategies.validSignals sq prices high low symbol).filter
              (fun s => s.action == Action.SELL)).length <
            ((TradingStrategies.validSignals sq prices high low symbol).filter
              (fun s => s.action == Action.BUY)).length
          then Action.BUY else Action.SELL) = Action.BUY
          then (jsLast prices).mul (num (103 / 100))
          else (jsLast prices).mul (num (97 / 100)),
        leverage := num 3 } :=
  consensus_eq_of_nonempty sq prices high low symbol hv

set_option maxHeartbeats 2000000 in
unseal Rat.add Rat.sub Rat.mul Rat.inv in
/-- Witness for C3 at the two-bar input `close = [100, 101]`,
`high = [101, 102]`, `low = [99, 100]`: four strategies vote (2 BUY / 2
SELL), and the consensus fields come out as the claim computes them. -/
theorem c3_consensus_signal_fields_witness :
    ((TradingStrategies.validSignals (fun _ => 0) [num 100, num 101] [num 101, num 102]
      [num 99, num 100] "C3").length ≠ 0) ∧
    (TradingStrategies.getConsensusSignal (fun _ => 0) [num 100, num 101] [num 101, num 102]
      [num 99, num 100] "C3").reason = "Consensus: 2/4 strategies agree" ∧
    (TradingStrategies.getConsensusSignal (fun _ => 0) [num 100, num 101] [num 101, num 102]
      [num 99, num 100] "C3").confidence = num (101 / 480) ∧
    (TradingStrategies.getConsensusSignal (fun _ => 0) [num 100, num 101] [num 101, num 102]
      [num 99, num 100] "C3").duration = "15m-4h" ∧
    (TradingStrategies.getConsensusSignal (fun _ => 0) [num 100, num 101] [num 101, num 102]
      [num 99, num 100] "C3").leverage = num 3 := by
  have h := c3_consensus_signal_fields (fun _ => 0) [num 100, num 101] [num 101, num 102]
    [num 99, num 100] "C3" (by decide)
  rw [h]
  exact ⟨by decide, by decide, by decide, by decide, by decide⟩

set_option maxHeartbeats 1000000 in
/-- Claim C4: when at least one non-HOLD signal exists, the consensus action
is BUY exactly when the BUY votes strictly outnumber the SELL votes, and SELL
otherwise — in particular an equal split resolves to SELL. -/
theorem c4_consensus_tie_goes_to_sell (sq : ℚ → ℚ) (prices high low : List JSNum)
    (symbol : String)
    (hv : (TradingStrategies.validSignals sq prices high low symbol).length ≠ 0) :
    (TradingStrategies.getConsensusSignal sq prices high low symbol).action =
      if ((TradingStrategies.validSignals sq prices high low symbol).filter
            (fun s => s.action == Action.SELL)).length <
          ((TradingStrategies.validSignals sq prices high low symbol).filter
            (fun s => s.action == Action.BUY)).length
        then Action.BUY else Action.SELL := by
  rw [consensus_eq_of_nonempty sq prices high low symbol hv]

set_option maxHeartbeats 2000000 in
unseal Rat.add Rat.sub Rat.mul Rat.inv in
/-- Witness for C4 at a concrete input with an exact 2-2 BUY/SELL tie: the
consensus action is SELL. -/
theorem c4_consensus_tie_goes_to_sell_witness :
    ((TradingStrategies.validSignals (fun _ => 0) [num 100, num 101] [num 101, num 102]
      [num 99, num 100] "C4").length ≠ 0) ∧
    ((TradingStrategies.validSignals (fun _ => 0) [num 100, num 101] [num 101, num 102]
      [num 99, num 100] "C4").filter (fun s => s.action == Action.BUY)).length =
      ((TradingStrategies.validSignals (fun _ => 0) [num 100, num 101] [num 101, num 102]
        [num 99, num 100] "C4").filter (fun s => s.action == Action.SELL)).length ∧
    (TradingStrategies.getConsensusSignal (fun _ => 0) [num 100, num 101] [num 101, num 102]
      [num 99, num 100] "C4").action = Action.SELL := by
  refine ⟨by decide, by decide, ?_⟩
  rw [c4_consensus_tie_goes_to_sell (fun _ => 0) [num 100, num 101] [num 101, num 102]
    [num 99, num 100] "C4" (by decide)]
  decide

set_option maxRecDepth 8000 in
unseal Rat.add Rat.sub Rat.mul Rat.inv in
/-- Claim C5 (evaluating the code at the failing input): on a flat series of
30 identical closes, `calculateRSI` with period 14 computes
`avgGain = avgLoss = 0`, so `rs = 0/0 = NaN` and the returned value is `NaN`
(with classification HOLD and strength 0) — not the neutral value 50 that the
specification's division guard mandates. -/
theorem c5_flat_series_rsi_value_is_nan :
    TechnicalIndicators.calculateRSI (List.replicate 30 (num 100)) 14 =
      ⟨JSNum.nan, Action.HOLD, num 0⟩ := by
  decide

set_option maxRecDepth 8000 in
unseal Rat.add Rat.sub Rat.mul Rat.inv in
/-- Claim C6 (evaluating the code at the failing input): on a zero-range
14-bar window (all closes, highs and lows equal), `calculateStochastic`
computes `%K = (0/0)·100 = NaN` and returns value `NaN` (classification HOLD,
strength 0) — not the documented neutral default `{50, HOLD, 0}`. -/
theorem c6_zero_range_stochastic_value_is_nan :
    TechnicalIndicators.calculateStochastic (List.replicate 14 (num 100))
      (List.replicate 14 (num 100)) (List.replicate 14 (num 100)) 14 =
      ⟨JSNum.nan, Action.HOLD, num 0⟩ := by
  decide

set_option maxRecDepth 8000 in
unseal Rat.add Rat.sub Rat.mul Rat.inv in
/-- Counterexample to C7 as stated: `movingAverageCross` on the one-bar
series `[100]` — far below its claimed 10–20-bar minimum — returns HOLD with
confidence 0 but with duration `"30m-2h"`, leverage 4 and nonzero
stop-loss/take-profit (102 and 96): it has no insufficient-data guard and
does not return the guard signal the claim requires of every strategy. -/
theorem c7_counterexample_movingAverageCross_unguarded :
    (TradingStrategies.movingAverageCross [num 100] "BTCUSDT").action = Action.HOLD ∧
    (TradingStrategies.movingAverageCross [num 100] "BTCUSDT").confidence = num 0 ∧
    (TradingStrategies.movingAverageCross [num 100] "BTCUSDT").duration = "30m-2h" ∧
    (TradingStrategies.movingAverageCross [num 100] "BTCUSDT").leverage = num 4 ∧
    (TradingStrategies.movingAverageCross [num 100] "BTCUSDT").stopLoss = num 102 ∧
    (TradingStrategies.movingAverageCross [num 100] "BTCUSDT").takeProfit = num 96 := by
  decide

/-- Claim C7 (amended): exactly the six strategies with explicit
insufficient-data guards (`volumeWeightedMACD` below 26 bars, `ichimokuCloud`
below 52, `supertrendStrategy` below 20, `parabolicSAR` below 10,
`adxMomentum` below 14, `vwapStrategy` below 20) short-circuit to the guard
HOLD `TradeSignal` with confidence 0, stopLoss 0, takeProfit 0, leverage 1,
duration `"N/A"` and a reason naming the missing requirement; the other
computational strategies (e.g. `movingAverageCross`, `priceAction`) have no
such guard, as the counterexample shows. -/
theorem c7_amended_guarded_strategies_short_circuit
    (prices volumes high low : List JSNum) (symbol : String) :
    (prices.length < 26 ∨ volumes.length < 26 →
      TradingStrategies.volumeWeightedMACD prices volumes symbol =
        TradingStrategies.guardSignal prices symbol "Insufficient data for VW-MACD") ∧
    (prices.length < 52 →
      TradingStrategies.ichimokuCloud prices symbol =
        TradingStrategies.guardSignal prices symbol "Insufficient data for Ichimoku") ∧
    (prices.length < 20 →
      TradingStrategies.supertrendStrategy prices high low symbol =
        TradingStrategies.guardSignal prices symbol "Insufficient data for Supertrend") ∧
    (prices.length < 10 →
      TradingStrategies.parabolicSAR prices high low symbol =
        TradingStrategies.guardSignal prices symbol "Insufficient data for Parabolic SAR") ∧
    (prices.length < 14 →
      TradingStrategies.adxMomentum prices high low symbol =
        TradingStrategies.guardSignal prices symbol "Insufficient data for ADX") ∧
    (prices.length < 20 ∨ volumes.length < 20 →
      TradingStrategies.vwapStrategy prices volumes high low symbol =
        TradingStrategies.guardSignal prices symbol "Insufficient data for VWAP") := by
  refine ⟨?_, ?_, ?_, ?_, ?_, ?_⟩ <;> intro h
  · unfold TradingStrategies.volumeWeightedMACD
    rw [if_pos h]
  · unfold TradingStrategies.ichimokuCloud
    rw [if_pos h]
  · unfold TradingStrategies.supertrendStrategy
    rw [if_pos h]
  · unfold TradingStrategies.parabolicSAR
    rw [if_pos h]
  · unfold TradingStrategies.adxMomentum
    rw [if_pos h]
  · unfold TradingStrategies.vwapStrategy
    rw [if_pos h]

set_option maxRecDepth 8000 in
unseal Rat.add Rat.sub Rat.mul Rat.inv in
/-- Witness for the amended C7 at the one-bar input `[100]`: each of the six
guarded strategies returns its guard signal. -/
theorem c7_amended_guarded_strategies_witness :
    ([JSNum.num 100] : List JSNum).length < 10 ∧
    (TradingStrategies.volumeWeightedMACD [num 100] [num 100] "BTCUSDT" =
      TradingStrategies.guardSignal [num 100] "BTCUSDT" "Insufficient data for VW-MACD") ∧
    (TradingStrategies.ichimokuCloud [num 100] "BTCUSDT" =
      TradingStrategies.guardSignal [num 100] "BTCUSDT" "Insufficient data for Ichimoku") ∧
    (TradingStrategies.supertrendStrategy [num 100] [num 100] [num 100] "BTCUSDT" =
      TradingStrategies.guardSignal [num 100] "BTCUSDT" "Insufficient data for Supertrend") ∧
    (TradingStrategies.parabolicSAR [num 100] [num 100] [num 100] "BTCUSDT" =
      TradingStrategies.guardSignal [num 100] "BTCUSDT" "Insufficient data for Parabolic SAR") ∧
    (TradingStrategies.adxMomentum [num 100] [num 100] [num 100] "BTCUSDT" =
      TradingStrategies.guardSignal [num 100] "BTCUSDT" "Insufficient data for ADX") ∧
    (TradingStrategies.vwapStrategy [num 100] [num 100] [num 100] [num 100] "BTCUSDT" =
      TradingStrategies.guardSignal [num 100] "BTCUSDT" "Insufficient data for VWAP") := by
  have h := c7_amended_guarded_strategies_short_circuit [num 100] [num 100] [num 100]
    [num 100] "BTCUSDT"
  exact ⟨by decide, h.1 (Or.inl (by decide)), h.2.1 (by decide), h.2.2.1 (by decide),
    h.2.2.2.1 (by decide), h.2.2.2.2.1 (by decide), h.2.2.2.2.2 (Or.inl (by decide))⟩

/-- The percentage-offset stop/target pattern shared by the strategies that
scale the current price by constants on either side of 1: their levels are
always on the protective side of a positive entry price. -/
lemma sidesOK_pct {sym dur re : String} {conf lev : JSNum} {a : Action} {cur : JSNum}
    {q c1 c2 c3 c4 : ℚ} (hq : cur = num q) (h0 : 0 < q)
    (hc1 : c1 < 1) (hc2 : 1 < c2) (hc3 : 1 < c3) (hc4 : c4 < 1) :
    sidesOK
      { symbol := sym, action := a, confidence := conf, price := cur,
        duration := dur, reason := re,
        stopLoss := if a = Action.BUY then cur.mul (num c1) else cur.mul (num c2),
        takeProfit := if a = Action.BUY then cur.mul (num c3) else cur.mul (num c4),
        leverage := lev } := by
  subst hq
  constructor
  · intro ha
    dsimp only at ha
    subst ha
    dsimp only
    rw [if_pos rfl, if_pos rfl]
    exact ⟨decide_eq_true (by nlinarith), decide_eq_true (by nlinarith)⟩
  · intro ha
    dsimp only at ha
    subst ha
    dsimp only
    rw [if_neg (fun h => Action.noConfusion h), if_neg (fun h => Action.noConfusion h)]
    exact ⟨decide_eq_true (by nlinarith), decide_eq_true (by nlinarith)⟩

lemma sidesOK_guard (prices : List JSNum) (symbol reason : String) :
    sidesOK (TradingStrategies.guardSignal prices symbol reason) :=
  ⟨fun h => Action.noConfusion h, fun h => Action.noConfusion h⟩

unseal Rat.add Rat.sub Rat.mul Rat.inv in
/-- Counterexample to C8 as stated: `supportResistance` on the flat one-bar
input (close = high = low = 100) returns a BUY whose take-profit (99) is
strictly below the entry price (100) and whose stop-loss equals the entry
price — neither level is on the claimed side, and both are nonzero. -/
theorem c8_counterexample_supportResistance_wrong_side :
    (TradingStrategies.supportResistance [num 100] [num 100] [num 100] "BTCUSDT").action
      = Action.BUY ∧
    (TradingStrategies.supportResistance [num 100] [num 100] [num 100] "BTCUSDT").price
      = num 100 ∧
    (TradingStrategies.supportResistance [num 100] [num 100] [num 100] "BTCUSDT").stopLoss
      = num 100 ∧
    (TradingStrategies.supportResistance [num 100] [num 100] [num 100] "BTCUSDT").takeProfit
      = num 99 := by
  decide

set_option maxHeartbeats 1000000 in
/-- Claim C8 (amended): for the fifteen strategies whose stop and target are
fixed percentage offsets of the current price (`movingAverageCross`,
`multiTimeframeRSI`, `trendFollowingMACD`, `volumeWeightedMACD`,
`ichimokuCloud`, `supertrendStrategy`, `adxMomentum`, `rsiDivergence`,
`macdHistogram`, `stochasticOscillator`, `williamsR`, `cciStrategy`,
`emaRibbon`, `volumeProfile`, `orderFlow`), whenever the current price is a
positive finite number, a BUY has its stop strictly below and its target
strictly above the entry, and a SELL the inverse.  Strategies whose levels
come from computed values (band edges, recent highs or lows, pivots, ATR
multiples, VWAP, long SMAs) do not guarantee this, as the `supportResistance`
counterexample shows. -/
theorem c8_amended_pct_offset_sides (sq : ℚ → ℚ) (prices volumes high low : List JSNum)
    (symbol : String) (q : ℚ) (hq : jsLast prices = num q) (hqpos : 0 < q) :
    sidesOK (TradingStrategies.movingAverageCross prices symbol) ∧
    sidesOK (TradingStrategies.multiTimeframeRSI prices high low symbol) ∧
    sidesOK (TradingStrategies.trendFollowingMACD prices symbol) ∧
    sidesOK (TradingStrategies.volumeWeightedMACD prices volumes symbol) ∧
    sidesOK (TradingStrategies.ichimokuCloud prices symbol) ∧
    sidesOK (TradingStrategies.supertrendStrategy prices high low symbol) ∧
    sidesOK (TradingStrategies.adxMomentum prices high low symbol) ∧
    sidesOK (TradingStrategies.rsiDivergence prices high low symbol) ∧
    sidesOK (TradingStrategies.macdHistogram prices symbol) ∧
    sidesOK (TradingStrategies.stochasticOscillator prices high low symbol) ∧
    sidesOK (TradingStrategies.williamsR prices high low symbol) ∧
    sidesOK (TradingStrategies.cciStrategy prices high low symbol) ∧
    sidesOK (TradingStrategies.emaRibbon prices symbol) ∧
    sidesOK (TradingStrategies.volumeProfile prices volumes symbol) ∧
    sidesOK (TradingStrategies.orderFlow prices volumes symbol) := by
  refine ⟨?_, ?_, ?_, ?_, ?_, ?_, ?_, ?_, ?_, ?_, ?_, ?_, ?_, ?_, ?_⟩
  · unfold TradingStrategies.movingAverageCross
    dsimp only
    refine sidesOK_pct hq hqpos ?_ ?_ ?_ ?_ <;> norm_num
  · unfold TradingStrategies.multiTimeframeRSI
    dsimp only
    refine sidesOK_pct hq hqpos ?_ ?_ ?_ ?_ <;> norm_num
  · unfold TradingStrategies.trendFollowingMACD
    dsimp only
    refine sidesOK_pct hq hqpos ?_ ?_ ?_ ?_ <;> norm_num
  · unfold TradingStrategies.volumeWeightedMACD
    split
    · exact sidesOK_guard _ _ _
    · dsimp only
      refine sidesOK_pct hq hqpos ?_ ?_ ?_ ?_ <;> norm_num
  · unfold TradingStrategies.ichimokuCloud
    split
    · exact sidesOK_guard _ _ _
    · dsimp only
      refine sidesOK_pct hq hqpos ?_ ?_ ?_ ?_ <;> norm_num
  · unfold TradingStrategies.supertrendStrategy
    split
    · exact sidesOK_guard _ _ _
    · dsimp only
      refine sidesOK_pct hq hqpos ?_ ?_ ?_ ?_ <;> norm_num
  · unfold TradingStrategies.adxMomentum
    split
    · exact sidesOK_guard _ _ _
    · dsimp only
      refine sidesOK_pct hq hqpos ?_ ?_ ?_ ?_ <;> norm_num
  · unfold TradingStrategies.rsiDivergence
    dsimp only
    refine sidesOK_pct hq hqpos ?_ ?_ ?_ ?_ <;> norm_num
  · unfold TradingStrategies.macdHistogram
    dsimp only
    refine sidesOK_pct hq hqpos ?_ ?_ ?_ ?_ <;> norm_num
  · unfold TradingStrategies.stochasticOscillator
    dsimp only
    refine sidesOK_pct hq hqpos ?_ ?_ ?_ ?_ <;> norm_num
  · unfold TradingStrategies.williamsR
    dsimp only
    refine sidesOK_pct hq hqpos ?_ ?_ ?_ ?_ <;> norm_num
  · unfold TradingStrategies.cciStrategy
    dsimp only
    refine sidesOK_pct hq hqpos ?_ ?_ ?_ ?_ <;> norm_num
  · unfold TradingStrategies.emaRibbon
    dsimp only
    refine sidesOK_pct hq hqpos ?_ ?_ ?_ ?_ <;> norm_num
  · unfold TradingStrategies.volumeProfile
    dsimp only
    refine sidesOK_pct hq hqpos ?_ ?_ ?_ ?_ <;> norm_num
  · unfold TradingStrategies.orderFlow
    dsimp only
    refine sidesOK_pct hq hqpos ?_ ?_ ?_ ?_ <;> norm_num

set_option maxRecDepth 8000 in
unseal Rat.add Rat.sub Rat.mul Rat.inv in
/-- Witness for the amended C8: on the ascending 20-bar series
`100, 101, ..., 119`, `movingAverageCross` fires BUY and its stop (≈ 116.6)
sits strictly below the entry (119) with its target (≈ 123.8) strictly
above. -/
theorem c8_amended_pct_offset_sides_witness :
    jsLast [num 100, num 101, num 102, num 103, num 104, num 105, num 106, num 107,
      num 108, num 109, num 110, num 111, num 112, num 113, num 114, num 115,
      num 116, num 117, num 118, num 119] = num 119 ∧ (0 : ℚ) < 119 ∧
    (TradingStrategies.movingAverageCross [num 100, num 101, num 102, num 103, num 104,
      num 105, num 106, num 107, num 108, num 109, num 110, num 111, num 112, num 113,
      num 114, num 115, num 116, num 117, num 118, num 119] "BTCUSDT").action
      = Action.BUY ∧
    ((TradingStrategies.movingAverageCross [num 100, num 101, num 102, num 103, num 104,
      num 105, num 106, num 107, num 108, num 109, num 110, num 111, num 112, num 113,
      num 114, num 115, num 116, num 117, num 118, num 119] "BTCUSDT").stopLoss.lt
      (TradingStrategies.movingAverageCross [num 100, num 101, num 102, num 103, num 104,
        num 105, num 106, num 107, num 108, num 109, num 110, num 111, num 112, num 113,
        num 114, num 115, num 116, num 117, num 118, num 119] "BTCUSDT").price = true) ∧
    ((TradingStrategies.movingAverageCross [num 100, num 101, num 102, num 103, num 104,
      num 105, num 106, num 107, num 108, num 109, num 110, num 111, num 112, num 113,
      num 114, num 115, num 116, num 117, num 118, num 119] "BTCUSDT").price.lt
      (TradingStrategies.movingAverageCross [num 100, num 101, num 102, num 103, num 104,
        num 105, num 106, num 107, num 108, num 109, num 110, num 111, num 112, num 113,
        num 114, num 115, num 116, num 117, num 118, num 119] "BTCUSDT").takeProfit
      = true) := by
  have h := c8_amended_pct_offset_sides (fun _ => 0) [num 100, num 101, num 102, num 103,
    num 104, num 105, num 106, num 107, num 108, num 109, num 110, num 111, num 112,
    num 113, num 114, num 115, num 116, num 117, num 118, num 119] [] [] [] "BTCUSDT"
    119 (by decide) (by norm_num)
  have hb : (TradingStrategies.movingAverageCross [num 100, num 101, num 102, num 103,
    num 104, num 105, num 106, num 107, num 108, num 109, num 110, num 111, num 112,
    num 113, num 114, num 115, num 116, num 117, num 118, num 119] "BTCUSDT").action
      = Action.BUY := by decide
  exact ⟨by decide, by norm_num, hb, (h.1.1 hb).1, (h.1.1 hb).2⟩

set_option maxRecDepth 8000 in
unseal Rat.add Rat.sub Rat.mul Rat.inv in
/-- Counterexample to C9's last clause: on the flat 10-bar series (shorter
than 26 points) `calculateMACD` does return all zeros, yet
`trendFollowingMACD` returns action BUY (confidence 0.1), not HOLD: with
fewer than 26 bars but at least 9, `EMA(9) = 100 > 0 = EMA(21)` and
`price > 0 = EMA(21)` give two buy votes. -/
theorem c9_counterexample_short_series_macd_buy :
    (List.replicate 10 (num 100)).length < 26 ∧
    TechnicalIndicators.calculateMACD (List.replicate 10 (num 100)) =
      ⟨num 0, num 0, num 0⟩ ∧
    (TradingStrategies.trendFollowingMACD (List.replicate 10 (num 100)) "BTCUSDT").action
      = Action.BUY := by
  decide

unseal Rat.add Rat.sub Rat.mul Rat.inv in
/-- Claim C9 (amended): for series of length ≥ 26, `calculateMACD` returns
`macd = EMA(12) - EMA(26)` over the full series, `signal = EMA(9)` over only
the last 26 prices (not a recursive EMA of the MACD line) and
`histogram = macd - signal`; for shorter series it returns all zeros.
`trendFollowingMACD` on a short series is guaranteed HOLD only when the
series is also shorter than 9 bars (with a positive last price), where the
EMA conditions split the vote one-to-one; with 9 to 25 bars it can act on the
EMA(9)/EMA(21) and price conditions alone, as the counterexample shows. -/
theorem c9_amended_macd_simplified_signal_line (prices : List JSNum) (symbol : String) :
    (26 ≤ prices.length →
      TechnicalIndicators.calculateMACD prices =
        ⟨(TechnicalIndicators.calculateEMA prices 12).sub
            (TechnicalIndicators.calculateEMA prices 26),
          TechnicalIndicators.calculateEMA (sliceLast prices 26) 9,
          ((TechnicalIndicators.calculateEMA prices 12).sub
            (TechnicalIndicators.calculateEMA prices 26)).sub
              (TechnicalIndicators.calculateEMA (sliceLast prices 26) 9)⟩) ∧
    (prices.length < 26 →
      TechnicalIndicators.calculateMACD prices = ⟨num 0, num 0, num 0⟩) ∧
    (prices.length < 9 → (jsLast prices).isPos →
      (TradingStrategies.trendFollowingMACD prices symbol).action = Action.HOLD) := by
  refine ⟨?_, ?_, ?_⟩
  · intro h
    unfold TechnicalIndicators.calculateMACD
    rw [if_neg (by omega)]
  · intro h
    unfold TechnicalIndicators.calculateMACD
    rw [if_pos h]
  · intro hlen hpos
    rcases JSNum.isPos_elim hpos with ⟨q, hq, hqpos⟩
    have he9 : TechnicalIndicators.calculateEMA prices 9 = num 0 := by
      unfold TechnicalIndicators.calculateEMA
      rw [if_pos (by omega)]
    have he21 : TechnicalIndicators.calculateEMA prices 21 = num 0 := by
      unfold TechnicalIndicators.calculateEMA
      rw [if_pos (by omega)]
    have hm : TechnicalIndicators.calculateMACD prices = ⟨num 0, num 0, num 0⟩ := by
      unfold TechnicalIndicators.calculateMACD
      rw [if_pos (by omega)]
    have l2 : JSNum.lt (num 0) (num q) = true := decide_eq_true hqpos
    unfold TradingStrategies.trendFollowingMACD
    rw [hm, he9, he21, hq]
    dsimp only
    rw [l2]
    decide

set_option maxRecDepth 8000 in
unseal Rat.add Rat.sub Rat.mul Rat.inv in
/-- Witness for the amended C9: at the flat 27-bar series the MACD formula
conjunct applies, at the flat 10-bar series the all-zeros conjunct applies,
and at the flat 5-bar series (positive prices) `trendFollowingMACD` holds. -/
theorem c9_amended_macd_simplified_signal_line_witness :
    26 ≤ (List.replicate 27 (num 100)).length ∧
    TechnicalIndicators.calculateMACD (List.replicate 27 (num 100)) =
      ⟨(TechnicalIndicators.calculateEMA (List.replicate 27 (num 100)) 12).sub
          (TechnicalIndicators.calculateEMA (List.replicate 27 (num 100)) 26),
        TechnicalIndicators.calculateEMA (sliceLast (List.replicate 27 (num 100)) 26) 9,
        ((TechnicalIndicators.calculateEMA (List.replicate 27 (num 100)) 12).sub
          (TechnicalIndicators.calculateEMA (List.replicate 27 (num 100)) 26)).sub
            (TechnicalIndicators.calculateEMA (sliceLast (List.replicate 27 (num 100)) 26) 9)⟩ ∧
    (List.replicate 5 (num 100)).length < 9 ∧ (jsLast (List.replicate 5 (num 100))).isPos ∧
    (TradingStrategies.trendFollowingMACD (List.replicate 5 (num 100)) "BTCUSDT").action
      = Action.HOLD :=
  ⟨by decide,
   (c9_amended_macd_simplified_signal_line (List.replicate 27 (num 100)) "BTCUSDT").1
    (by decide),
   by decide,
   by decide,
   (c9_amended_macd_simplified_signal_line (List.replicate 5 (num 100)) "BTCUSDT").2.2
    (by decide) (by decide)⟩

/-- Claim C2: on every input, `getAllSignals` returns exactly 58
`TradeSignal`s, and the signal at every position `i` is produced by the
strategy paired (in `catalog`) with the name at position `i` of the fixed
58-name list `getAllStrategyNames`. -/
theorem c2_fifty_eight_positional_signals (sq : ℚ → ℚ)
    (prices high low : List JSNum) (symbol : String) :
    TradingStrategies.getAllStrategyNames.length = 58 ∧
    (TradingStrategies.getAllSignals sq prices high low symbol).length = 58 ∧
    TradingStrategies.getAllStrategyNames = (catalog sq).map Prod.fst ∧
    TradingStrategies.getAllSignals sq prices high low symbol
      = (catalog sq).map (fun e => e.2 prices high low symbol) :=
  ⟨rfl, rfl, rfl, rfl⟩

/-- Folding JS addition over a block of ones adds the block length. -/
lemma foldl_add_replicate_one (m : ℕ) :
    ∀ k : ℚ, List.foldl JSNum.add (num k) (List.replicate m (num 1)) = num (k + m) := by
  induction m with
  | zero => intro k; simp
  | succ m ih =>
    intro k
    rw [List.replicate_succ]
    have h1 : (num k).add (num 1) = num (k + 1) := rfl
    show List.foldl JSNum.add ((num k).add (num 1)) (List.replicate m (num 1))
      = num (k + (m + 1 : ℕ))
    rw [h1, ih (k + 1)]
    congr 1
    push_cast
    ring

/-- `volumes.reduce((s, v) => s + v, 0)` over the synthesized all-ones volume
series is its length. -/
lemma jsum_replicate_one (n : ℕ) :
    jsum (List.replicate n (num 1)) = num (n : ℚ) := by
  unfold jsum
  rw [foldl_add_replicate_one n 0, zero_add]

lemma getD_replicate_lt {α : Type} (x d : α) : ∀ (n i : ℕ), i < n →
    (List.replicate n x).getD i d = x := by
  intro n
  induction n with
  | zero => intro i hi; omega
  | succ n ih =>
    intro i hi
    cases i with
    | zero => rfl
    | succ j => exact ih j (by omega)

/-- In-range reads of a constant array return the constant. -/
lemma jsIdx_replicate (n : ℕ) (x : JSNum) (i : ℤ) (h0 : 0 ≤ i) (hi : i.toNat < n) :
    jsIdx (List.replicate n x) i = x := by
  unfold jsIdx
  rw [if_pos h0]
  exact getD_replicate_lt x JSNum.nan n i.toNat hi

lemma jsLast_replicate (n : ℕ) (x : JSNum) (h : 1 ≤ n) :
    jsLast (List.replicate n x) = x := by
  unfold jsLast
  rw [List.length_replicate]
  exact jsIdx_replicate n x ((n : ℤ) - 1) (by omega) (by omega)

/-- JS division of a nonzero finite number by itself is `1`. -/
lemma jsdiv_self (q : ℚ) (hq : q ≠ 0) : (num q).div (num q) = num 1 := by
  show (if q = 0 then (if q = 0 then JSNum.nan else if 0 < q then JSNum.inf else JSNum.ninf)
    else num (q / q)) = num 1
  rw [if_neg hq, div_self hq]

/-- `volumeProfile` returns HOLD with zero confidence whenever its
volume-spike test (current volume above 1.5× the average) is false: both of
its firing branches start with that conjunct. -/
lemma volumeProfile_spike_false_hold (prices volumes : List JSNum) (symbol : String)
    (hc : (((jsum volumes).div (num (volumes.length : ℚ))).mul (num (15 / 10))).lt
      (jsLast volumes) = false) :
    (TradingStrategies.volumeProfile prices volumes symbol).action = Action.HOLD ∧
    (TradingStrategies.volumeProfile prices volumes symbol).confidence = num 0 := by
  unfold TradingStrategies.volumeProfile
  dsimp only
  rw [hc]
  simp only [Bool.false_and]
  exact ⟨rfl, rfl⟩

/-- `orderFlow` returns HOLD with zero confidence whenever its
volume-increase test (`volumeChange > 0`) is false: both of its firing
branches end with that conjunct. -/
lemma orderFlow_volume_flat_hold (prices volumes : List JSNum) (symbol : String)
    (hc : (num 0).lt ((jsLast volumes).sub
      (jsOr (jsIdx volumes ((volumes.length : ℤ) - 2)) (jsLast volumes))) = false) :
    (TradingStrategies.orderFlow prices volumes symbol).action = Action.HOLD ∧
    (TradingStrategies.orderFlow prices volumes symbol).confidence = num 0 := by
  unfold TradingStrategies.orderFlow
  dsimp only
  rw [hc]
  simp only [Bool.and_false]
  exact ⟨rfl, rfl⟩

unseal Rat.add Rat.sub Rat.mul Rat.inv in
/-- Claim C10: `getAllSignals` hands the volume-consuming strategies a
synthesized all-ones volume series (positions 22 and 23 of the signal list
are exactly `volumeProfile` and `orderFlow` applied to it), and on such
constant volumes — for any price series of length at least 2 — both
strategies return action HOLD with confidence 0: the current volume (1) can
never exceed 1.5× the average volume (1), and the volume change is always
exactly 0. -/
theorem c10_unit_volumes_silence_volume_strategies (sq : ℚ → ℚ)
    (prices high low : List JSNum) (symbol : String) (h2 : 2 ≤ prices.length) :
    (TradingStrategies.getAllSignals sq prices high low symbol).getD 22 dummySignal
      = TradingStrategies.volumeProfile prices
          (List.replicate prices.length (num 1)) symbol ∧
    (TradingStrategies.getAllSignals sq prices high low symbol).getD 23 dummySignal
      = TradingStrategies.orderFlow prices
          (List.replicate prices.length (num 1)) symbol ∧
    (TradingStrategies.volumeProfile prices
      (List.replicate prices.length (num 1)) symbol).action = Action.HOLD ∧
    (TradingStrategies.volumeProfile prices
      (List.replicate prices.length (num 1)) symbol).confidence = num 0 ∧
    (TradingStrategies.orderFlow prices
      (List.replicate prices.length (num 1)) symbol).action = Action.HOLD ∧
    (TradingStrategies.orderFlow prices
      (List.replicate prices.length (num 1)) symbol).confidence = num 0 := by
  have hlen1 : 1 ≤ prices.length := by omega
  have hne : ((prices.length : ℚ)) ≠ 0 := Nat.cast_ne_zero.mpr (by omega)
  have hc1 : (((jsum (List.replicate prices.length (num 1))).div
      (num ((List.replicate prices.length (num 1)).length : ℚ))).mul (num (15 / 10))).lt
      (jsLast (List.replicate prices.length (num 1))) = false := by
    rw [jsum_replicate_one, List.length_replicate,
      jsLast_replicate prices.length (num 1) hlen1, jsdiv_self _ hne]
    decide
  have hc2 : (num 0).lt ((jsLast (List.replicate prices.length (num 1))).sub
      (jsOr (jsIdx (List.replicate prices.length (num 1))
        (((List.replicate prices.length (num 1)).length : ℤ) - 2))
        (jsLast (List.replicate prices.length (num 1))))) = false := by
    rw [List.length_replicate, jsLast_replicate prices.length (num 1) hlen1,
      jsIdx_replicate prices.length (num 1) ((prices.length : ℤ) - 2)
        (by omega) (by omega)]
    decide
  obtain ⟨hvA, hvC⟩ := volumeProfile_spike_false_hold prices
    (List.replicate prices.length (num 1)) symbol hc1
  obtain ⟨hoA, hoC⟩ := orderFlow_volume_flat_hold prices
    (List.replicate prices.length (num 1)) symbol hc2
  exact ⟨rfl, rfl, hvA, hvC, hoA, hoC⟩

set_option maxRecDepth 8000 in
unseal Rat.add Rat.sub Rat.mul Rat.inv in
/-- Witness for C10: on the two-bar series `100, 101` both volume-consuming
strategies, fed the synthesized all-ones volumes, hold. -/
theorem c10_unit_volumes_silence_volume_strategies_witness :
    2 ≤ ([num 100, num 101] : List JSNum).length ∧
    (TradingStrategies.volumeProfile [num 100, num 101]
      (List.replicate ([num 100, num 101] : List JSNum).length (num 1)) "C10").action
      = Action.HOLD ∧
    (TradingStrategies.orderFlow [num 100, num 101]
      (List.replicate ([num 100, num 101] : List JSNum).length (num 1)) "C10").action
      = Action.HOLD := by
  have h := c10_unit_volumes_silence_volume_strategies (fun _ => 0) [num 100, num 101]
    [num 101, num 102] [num 99, num 100] "C10" (by decide)
  exact ⟨by decide, h.2.2.1, h.2.2.2.2.1⟩

end PTB
